import Mathlib

/-!
Verification of the core protocol logic of the esp32-usb-cam-rtsp sources:
the MAVLink byte-stream parser with its CRC-16/X.25 accumulator and
CRC_EXTRA table (src/mavlink_telemetry.c), the GCS peer table of the
UART/UDP telemetry bridge, the RTSP session state machine and RTP/JPEG
packetizer (src/rtsp_server.c), the MJPEG fanout server
(esp32-usb-cam-rtsp/src/rtsp_server.c) and the single-slot frame relay of
its main.c.  Machine integers are modelled as Nat with explicit reductions
modulo 2^8, 2^16, 2^32 or 2^64 at the points where the C code stores into
a fixed-width integer.
-/

namespace MavlinkDrone

/-! ## CRC-16/MCRF4XX (X.25) accumulator, from mavlink_telemetry.c -/

/-- MAVLINK_STX_V1 from mavlink_types.h. -/
def MAVLINK_STX_V1 : Nat := 0xFE

/-- MAVLINK_STX_V2 from mavlink_types.h. -/
def MAVLINK_STX_V2 : Nat := 0xFD

/-- One step of mavlink_crc_accumulate: tmp is a uint8_t, the crc a
uint16_t, so the two intermediate xors are reduced mod 256 and the store
back into the crc mod 65536. -/
def mavlink_crc_accumulate (byte crc : Nat) : Nat :=
  let tmp0 := (byte ^^^ (crc % 256)) % 256
  let tmp := (tmp0 ^^^ (tmp0 <<< 4)) % 256
  ((crc >>> 8) ^^^ (tmp <<< 8) ^^^ (tmp <<< 3) ^^^ (tmp >>> 4)) % 65536

/-- mavlink_crc_init sets the accumulator to 0xFFFF. -/
def mavlink_crc_init : Nat := 0xFFFF

/-- Folding the accumulator over a byte list from a given start value
(the loop of mavlink_crc_calculate, generalized over the start). -/
def crcFold (crc : Nat) (bs : List Nat) : Nat :=
  bs.foldl (fun c b => mavlink_crc_accumulate b c) crc

/-- mavlink_crc_calculate: accumulate over a whole buffer from 0xFFFF. -/
def mavlink_crc_calculate (bs : List Nat) : Nat :=
  crcFold mavlink_crc_init bs

/-- mavlink_get_crc_extra: linear scan of crc_extra_table, first matching
message id wins, unknown ids give 0.  The table rows are exactly those of
mavlink_telemetry.c. -/
def mavlink_get_crc_extra (msgid : Nat) : Nat :=
  if msgid = 0 then 50
  else if msgid = 1 then 124
  else if msgid = 2 then 137
  else if msgid = 4 then 237
  else if msgid = 24 then 24
  else if msgid = 30 then 39
  else if msgid = 33 then 104
  else if msgid = 35 then 244
  else if msgid = 36 then 54
  else if msgid = 65 then 118
  else if msgid = 74 then 20
  else if msgid = 76 then 152
  else if msgid = 77 then 143
  else if msgid = 147 then 154
  else if msgid = 253 then 83
  else 0

/-! ## Parser state machine, from mavlink_types.h / mavlink_telemetry.c -/

/-- mavlink_parse_state_t (the states the code can actually enter). -/
inductive MavParseState where
  | idle
  | gotStx
  | gotLength
  | gotIncompatFlags
  | gotCompatFlags
  | gotSeq
  | gotSysid
  | gotCompid
  | gotMsgid1
  | gotMsgid2
  | gotMsgid3
  | gotPayload
  | gotCrc1
deriving DecidableEq

/-- mavlink_framing_t. -/
inductive MavFraming where
  | ok
  | incomplete
  | badCrc
deriving DecidableEq

/-- mavlink_message_t: all integer fields as Nat, the 255-byte payload
buffer as a list of length 255 (MAVLINK_MAX_PAYLOAD_LEN). -/
structure MavMessage where
  magic : Nat
  len : Nat
  incompat_flags : Nat
  compat_flags : Nat
  seq : Nat
  sysid : Nat
  compid : Nat
  msgid : Nat
  payload : List Nat
  checksum : Nat
deriving DecidableEq

/-- mavlink_parser_t. -/
structure MavParser where
  state : MavParseState
  packet_idx : Nat
  msg : MavMessage
  checksum : Nat
deriving DecidableEq

/-- mavlink_parser_init: memset to zero, state IDLE; the payload buffer is
the zeroed 255-byte array. -/
def mavlink_parser_init : MavParser :=
  { state := .idle
    packet_idx := 0
    msg := { magic := 0, len := 0, incompat_flags := 0, compat_flags := 0,
             seq := 0, sysid := 0, compid := 0, msgid := 0,
             payload := List.replicate 255 0, checksum := 0 }
    checksum := 0 }

/-- mavlink_parse_char, translated case by case from mavlink_telemetry.c.
packet_idx is a uint8_t, so its increments are reduced mod 256. -/
def mavlink_parse_char (p : MavParser) (byte : Nat) : MavParser × MavFraming :=
  match p.state with
  | .idle =>
    if byte = MAVLINK_STX_V1 ∨ byte = MAVLINK_STX_V2 then
      ({ p with msg := { p.msg with magic := byte }, packet_idx := 0,
                checksum := mavlink_crc_init, state := .gotStx }, .incomplete)
    else (p, .incomplete)
  | .gotStx =>
    let p := { p with msg := { p.msg with len := byte },
                      checksum := mavlink_crc_accumulate byte p.checksum }
    if p.msg.magic = MAVLINK_STX_V2 then
      ({ p with state := .gotLength }, .incomplete)
    else
      ({ p with msg := { p.msg with incompat_flags := 0, compat_flags := 0 },
                state := .gotCompatFlags }, .incomplete)
  | .gotLength =>
    ({ p with msg := { p.msg with incompat_flags := byte },
              checksum := mavlink_crc_accumulate byte p.checksum,
              state := .gotIncompatFlags }, .incomplete)
  | .gotIncompatFlags =>
    ({ p with msg := { p.msg with compat_flags := byte },
              checksum := mavlink_crc_accumulate byte p.checksum,
              state := .gotCompatFlags }, .incomplete)
  | .gotCompatFlags =>
    ({ p with msg := { p.msg with seq := byte },
              checksum := mavlink_crc_accumulate byte p.checksum,
              state := .gotSeq }, .incomplete)
  | .gotSeq =>
    ({ p with msg := { p.msg with sysid := byte },
              checksum := mavlink_crc_accumulate byte p.checksum,
              state := .gotSysid }, .incomplete)
  | .gotSysid =>
    let p := { p with msg := { p.msg with compid := byte },
                      checksum := mavlink_crc_accumulate byte p.checksum }
    if p.msg.magic = MAVLINK_STX_V2 then
      ({ p with state := .gotCompid }, .incomplete)
    else
      ({ p with state := .gotMsgid3 }, .incomplete)
  | .gotCompid =>
    ({ p with msg := { p.msg with msgid := byte },
              checksum := mavlink_crc_accumulate byte p.checksum,
              state := .gotMsgid1 }, .incomplete)
  | .gotMsgid1 =>
    ({ p with msg := { p.msg with msgid := p.msg.msgid ||| (byte <<< 8) },
              checksum := mavlink_crc_accumulate byte p.checksum,
              state := .gotMsgid2 }, .incomplete)
  | .gotMsgid2 =>
    ({ p with msg := { p.msg with msgid := p.msg.msgid ||| (byte <<< 16) },
              checksum := mavlink_crc_accumulate byte p.checksum,
              state := .gotMsgid3 }, .incomplete)
  | .gotMsgid3 =>
    let p :=
      if p.msg.magic = MAVLINK_STX_V1 then
        { p with msg := { p.msg with msgid := byte },
                 checksum := mavlink_crc_accumulate byte p.checksum }
      else p
    let p := { p with packet_idx := 0 }
    if p.msg.len > 0 then
      if p.msg.magic = MAVLINK_STX_V1 then
        ({ p with state := .gotPayload }, .incomplete)
      else
        let p := { p with msg := { p.msg with payload := p.msg.payload.set p.packet_idx byte },
                          packet_idx := (p.packet_idx + 1) % 256,
                          checksum := mavlink_crc_accumulate byte p.checksum }
        if p.packet_idx ≥ p.msg.len then
          ({ p with state := .gotPayload }, .incomplete)
        else (p, .incomplete)
    else
      ({ p with state := .gotPayload }, .incomplete)
  | .gotPayload =>
    if p.packet_idx < p.msg.len then
      let p := { p with msg := { p.msg with payload := p.msg.payload.set p.packet_idx byte },
                        packet_idx := (p.packet_idx + 1) % 256,
                        checksum := mavlink_crc_accumulate byte p.checksum }
      if p.packet_idx ≥ p.msg.len then
        ({ p with checksum := mavlink_crc_accumulate (mavlink_get_crc_extra p.msg.msgid) p.checksum },
         .incomplete)
      else (p, .incomplete)
    else
      ({ p with msg := { p.msg with checksum := byte }, state := .gotCrc1 }, .incomplete)
  | .gotCrc1 =>
    let p := { p with msg := { p.msg with checksum := p.msg.checksum ||| (byte <<< 8) } }
    if p.msg.checksum = p.checksum then
      ({ p with state := .idle }, .ok)
    else
      ({ p with state := .idle }, .badCrc)

/-- Feed a whole byte list, collecting the framing result of every call. -/
def feedList (p : MavParser) : List Nat → MavParser × List MavFraming
  | [] => (p, [])
  | b :: rest =>
    let r := mavlink_parse_char p b
    let rr := feedList r.1 rest
    (rr.1, r.2 :: rr.2)

/-- Modelled from the spec: the wire encoding of a valid MAVLink v1 frame,
whose received checksum is the CRC-16/X.25 over length..payload plus the
message's crcExtra byte (unknown ids use 0), low byte first. -/
def specV1FrameBytes (seqb sysb compb mid : Nat) (payload : List Nat) : List Nat :=
  let ck := mavlink_crc_calculate
    ([payload.length, seqb, sysb, compb, mid] ++ payload ++ [mavlink_get_crc_extra mid])
  [0xFE, payload.length, seqb, sysb, compb, mid] ++ payload ++ [ck % 256, ck >>> 8]

/-- Modelled from the spec: the wire encoding of a valid MAVLink v2 frame,
with the 24-bit message id little endian and the checksum over
length..payload plus crcExtra. -/
def specV2FrameBytes (incompat compat seqb sysb compb mid : Nat) (payload : List Nat) : List Nat :=
  let ck := mavlink_crc_calculate
    ([payload.length, incompat, compat, seqb, sysb, compb,
      mid % 256, (mid >>> 8) % 256, (mid >>> 16) % 256] ++ payload ++ [mavlink_get_crc_extra mid])
  [0xFD, payload.length, incompat, compat, seqb, sysb, compb,
   mid % 256, (mid >>> 8) % 256, (mid >>> 16) % 256] ++ payload ++ [ck % 256, ck >>> 8]

/-! ## CRC algebra and parser run lemmas -/


/-- Byte-level decomposition helpers for the CRC step. -/
def crcTmp (t0 : Nat) : Nat := (t0 ^^^ (t0 <<< 4)) % 256

def crcHiByte (t : Nat) : Nat := t ^^^ (t >>> 5)

lemma crcTmp_lt (t0 : Nat) : crcTmp t0 < 256 := Nat.mod_lt _ (by norm_num)

set_option maxRecDepth 4096 in
lemma crcTmp_invol : ∀ t0 < 256, crcTmp (crcTmp t0) = t0 := by decide

set_option maxRecDepth 4096 in
lemma crcHiByte_invol : ∀ t < 256, crcHiByte (crcHiByte t) = t := by decide

lemma xor_lt_256 {a b : Nat} (ha : a < 256) (hb : b < 256) : a ^^^ b < 256 := by
  have : (256 : Nat) = 2 ^ 8 := by norm_num
  rw [this] at *
  exact Nat.xor_lt_two_pow ha hb

lemma xor_shiftRight_distrib (a b n : Nat) : (a ^^^ b) >>> n = (a >>> n) ^^^ (b >>> n) := by
  apply Nat.eq_of_testBit_eq
  intro i
  simp

lemma xor_right_cancel {a b X : Nat} (h : a ^^^ X = b ^^^ X) : a = b := by
  have h2 := congrArg (· ^^^ X) h
  simpa [Nat.xor_assoc] using h2

lemma xor_left_cancel {a x y : Nat} (h : a ^^^ x = a ^^^ y) : x = y := by
  have h2 := congrArg (a ^^^ ·) h
  simpa [← Nat.xor_assoc] using h2

lemma crc_acc_lt (b c : Nat) : mavlink_crc_accumulate b c < 65536 := by
  unfold mavlink_crc_accumulate
  exact Nat.mod_lt _ (by norm_num)

lemma crc_acc_def (b c : Nat) :
    mavlink_crc_accumulate b c =
      ((c >>> 8) ^^^ ((crcTmp ((b ^^^ c % 256) % 256)) <<< 8) ^^^
        ((crcTmp ((b ^^^ c % 256) % 256)) <<< 3) ^^^ ((crcTmp ((b ^^^ c % 256) % 256)) >>> 4)) % 65536 := rfl

lemma crc_acc_eq2 {b c : Nat} (hb : b < 256) (hc : c < 65536) :
    mavlink_crc_accumulate b c =
      (c >>> 8) ^^^ (((crcTmp (b ^^^ c % 256)) <<< 8) ^^^
        (((crcTmp (b ^^^ c % 256)) <<< 3) ^^^ ((crcTmp (b ^^^ c % 256)) >>> 4))) := by
  rw [crc_acc_def]
  have hx : (b ^^^ c % 256) % 256 = b ^^^ c % 256 :=
    Nat.mod_eq_of_lt (xor_lt_256 hb (Nat.mod_lt _ (by norm_num)))
  rw [hx]
  set t := crcTmp (b ^^^ c % 256) with ht
  have htlt : t < 256 := crcTmp_lt _
  have h1 : c >>> 8 < 256 := by
    rw [Nat.shiftRight_eq_div_pow]
    omega
  have h2 : t <<< 8 < 65536 := by
    rw [Nat.shiftLeft_eq]
    omega
  have h3 : t <<< 3 < 65536 := by
    rw [Nat.shiftLeft_eq]
    omega
  have h4 : t >>> 4 < 65536 := by
    rw [Nat.shiftRight_eq_div_pow]
    omega
  have hb16 : (65536 : Nat) = 2 ^ 16 := by norm_num
  have hlt : (c >>> 8) ^^^ t <<< 8 ^^^ t <<< 3 ^^^ t >>> 4 < 65536 := by
    rw [hb16]
    apply Nat.xor_lt_two_pow _ (by omega)
    apply Nat.xor_lt_two_pow _ (by omega)
    apply Nat.xor_lt_two_pow (by omega) (by omega)
  rw [Nat.mod_eq_of_lt hlt, Nat.xor_assoc, Nat.xor_assoc]

lemma crc_acc_shiftRight8 {b c : Nat} (hb : b < 256) (hc : c < 65536) :
    (mavlink_crc_accumulate b c) >>> 8 = crcHiByte (crcTmp (b ^^^ c % 256)) := by
  rw [crc_acc_eq2 hb hc]
  set t := crcTmp (b ^^^ c % 256) with ht
  have htlt : t < 256 := crcTmp_lt _
  rw [xor_shiftRight_distrib, xor_shiftRight_distrib, xor_shiftRight_distrib]
  have e1 : (c >>> 8) >>> 8 = 0 := by
    rw [Nat.shiftRight_eq_div_pow, Nat.shiftRight_eq_div_pow]
    omega
  have e2 : (t <<< 8) >>> 8 = t := by
    rw [Nat.shiftLeft_eq, Nat.shiftRight_eq_div_pow]
    norm_num
  have e3 : (t <<< 3) >>> 8 = t >>> 5 := by
    rw [Nat.shiftLeft_eq, Nat.shiftRight_eq_div_pow, Nat.shiftRight_eq_div_pow]
    norm_num
    omega
  have e4 : (t >>> 4) >>> 8 = 0 := by
    rw [Nat.shiftRight_eq_div_pow, Nat.shiftRight_eq_div_pow]
    omega
  rw [e1, e2, e3, e4]
  simp [crcHiByte]

lemma crcTmp_inj {x y : Nat} (hx : x < 256) (hy : y < 256) (h : crcTmp x = crcTmp y) : x = y := by
  have h2 := congrArg crcTmp h
  rwa [crcTmp_invol _ hx, crcTmp_invol _ hy] at h2

lemma crcHiByte_inj {x y : Nat} (hx : x < 256) (hy : y < 256) (h : crcHiByte x = crcHiByte y) : x = y := by
  have h2 := congrArg crcHiByte h
  rwa [crcHiByte_invol _ hx, crcHiByte_invol _ hy] at h2

/-- Changing the input byte changes the accumulated CRC. -/
lemma crc_acc_inj_byte {b1 b2 c : Nat} (hb1 : b1 < 256) (hb2 : b2 < 256) (hc : c < 65536)
    (hne : b1 ≠ b2) : mavlink_crc_accumulate b1 c ≠ mavlink_crc_accumulate b2 c := by
  intro h
  have h8 : (mavlink_crc_accumulate b1 c) >>> 8 = (mavlink_crc_accumulate b2 c) >>> 8 := by rw [h]
  rw [crc_acc_shiftRight8 hb1 hc, crc_acc_shiftRight8 hb2 hc] at h8
  have hm : c % 256 < 256 := Nat.mod_lt _ (by norm_num)
  have h1 : b1 ^^^ c % 256 = b2 ^^^ c % 256 :=
    crcTmp_inj (xor_lt_256 hb1 hm) (xor_lt_256 hb2 hm)
      (crcHiByte_inj (crcTmp_lt _) (crcTmp_lt _) h8)
  exact hne (xor_right_cancel h1)

/-- For a fixed byte, the CRC step is injective in the accumulator. -/
lemma crc_acc_inj_crc {b c1 c2 : Nat} (hb : b < 256) (hc1 : c1 < 65536) (hc2 : c2 < 65536)
    (hne : c1 ≠ c2) : mavlink_crc_accumulate b c1 ≠ mavlink_crc_accumulate b c2 := by
  intro h
  have hm1 : c1 % 256 < 256 := Nat.mod_lt _ (by norm_num)
  have hm2 : c2 % 256 < 256 := Nat.mod_lt _ (by norm_num)
  by_cases hlo : c1 % 256 = c2 % 256
  · rw [crc_acc_eq2 hb hc1, crc_acc_eq2 hb hc2, hlo] at h
    have hhi : c1 >>> 8 = c2 >>> 8 := xor_right_cancel h
    rw [Nat.shiftRight_eq_div_pow] at hhi
    have : c1 = c2 := by omega
    exact hne this
  · have h8 : (mavlink_crc_accumulate b c1) >>> 8 = (mavlink_crc_accumulate b c2) >>> 8 := by rw [h]
    rw [crc_acc_shiftRight8 hb hc1, crc_acc_shiftRight8 hb hc2] at h8
    have h1 : b ^^^ c1 % 256 = b ^^^ c2 % 256 :=
      crcTmp_inj (xor_lt_256 hb hm1) (xor_lt_256 hb hm2)
        (crcHiByte_inj (crcTmp_lt _) (crcTmp_lt _) h8)
    exact hlo (xor_left_cancel h1)

lemma crcFold_cons (c b : Nat) (bs : List Nat) :
    crcFold c (b :: bs) = crcFold (mavlink_crc_accumulate b c) bs := rfl

lemma crcFold_append (c : Nat) (xs ys : List Nat) :
    crcFold c (xs ++ ys) = crcFold (crcFold c xs) ys := by
  simp [crcFold, List.foldl_append]

lemma crcFold_lt {c : Nat} (hc : c < 65536) (bs : List Nat) : crcFold c bs < 65536 := by
  induction bs generalizing c with
  | nil => exact hc
  | cons b rest ih => exact ih (crc_acc_lt b c)

lemma crcFold_inj {bs : List Nat} (hbs : ∀ x ∈ bs, x < 256) :
    ∀ {c1 c2 : Nat}, c1 < 65536 → c2 < 65536 → c1 ≠ c2 → crcFold c1 bs ≠ crcFold c2 bs := by
  induction bs with
  | nil => intro c1 c2 _ _ hne; exact hne
  | cons b rest ih =>
    intro c1 c2 hc1 hc2 hne
    rw [crcFold_cons, crcFold_cons]
    have hb : b < 256 := hbs b (by simp)
    exact ih (fun x hx => hbs x (by simp [hx])) (crc_acc_lt b c1) (crc_acc_lt b c2)
      (crc_acc_inj_crc hb hc1 hc2 hne)

/-- Recomposing a 16-bit value from its two checksum bytes. -/
lemma lo_or_hi_shift (x : Nat) : (x % 256) ||| ((x >>> 8) <<< 8) = x := by
  apply Nat.eq_of_testBit_eq
  intro i
  rw [Nat.testBit_or]
  rcases Nat.lt_or_ge i 8 with hi | hi
  · have h256 : (256 : Nat) = 2 ^ 8 := by norm_num
    rw [h256, Nat.testBit_mod_two_pow, Nat.testBit_shiftLeft]
    simp [hi, Nat.not_le.mpr hi]
  · have h256 : (256 : Nat) = 2 ^ 8 := by norm_num
    rw [h256, Nat.testBit_mod_two_pow, Nat.testBit_shiftLeft, Nat.testBit_shiftRight]
    have : 8 + (i - 8) = i := by omega
    rw [this]
    simp [hi, Nat.not_lt.mpr hi]

lemma feedList_nil (p : MavParser) : feedList p [] = (p, []) := rfl

lemma feedList_cons (p : MavParser) (b : Nat) (rest : List Nat) :
    feedList p (b :: rest) =
      ((feedList (mavlink_parse_char p b).1 rest).1,
        (mavlink_parse_char p b).2 :: (feedList (mavlink_parse_char p b).1 rest).2) := rfl

lemma feedList_append (p : MavParser) (xs ys : List Nat) :
    feedList p (xs ++ ys) =
      ((feedList (feedList p xs).1 ys).1, (feedList p xs).2 ++ (feedList (feedList p xs).1 ys).2) := by
  induction xs generalizing p with
  | nil => simp [feedList_nil]
  | cons b rest ih => simp [feedList_cons, ih]

/-- Feeding the six header bytes of a v1 frame from any idle parser state. -/
lemma feed_v1_header (p : MavParser) (hp : p.state = .idle) (L sq sy cp mid : Nat) (hL : 1 ≤ L) :
    feedList p [0xFE, L, sq, sy, cp, mid] =
      ({ state := .gotPayload, packet_idx := 0,
         msg := { magic := 0xFE, len := L, incompat_flags := 0, compat_flags := 0,
                  seq := sq, sysid := sy, compid := cp, msgid := mid,
                  payload := p.msg.payload, checksum := p.msg.checksum },
         checksum := crcFold 0xFFFF [L, sq, sy, cp, mid] },
       List.replicate 6 .incomplete) := by
  obtain ⟨st, idx, msg, ck⟩ := p
  simp only at hp
  subst hp
  simp [feedList_cons, feedList_nil, mavlink_parse_char, MAVLINK_STX_V1, MAVLINK_STX_V2,
        mavlink_crc_init, crcFold, Nat.lt_of_lt_of_le Nat.zero_lt_one hL,
        List.replicate]

/-- One GOT_PAYLOAD step that stores a byte without completing the payload. -/
lemma parse_payload_mid {idx : Nat} {msg : MavMessage} (ck b : Nat)
    (h1 : idx + 1 < msg.len) (h255 : msg.len ≤ 255) :
    mavlink_parse_char ⟨.gotPayload, idx, msg, ck⟩ b =
      (⟨.gotPayload, idx + 1, { msg with payload := msg.payload.set idx b },
        mavlink_crc_accumulate b ck⟩, .incomplete) := by
  have hidx : idx < msg.len := by omega
  have hmod : (idx + 1) % 256 = idx + 1 := Nat.mod_eq_of_lt (by omega)
  simp only [mavlink_parse_char]
  rw [if_pos hidx]
  simp only [hmod]
  rw [if_neg (by omega)]

/-- The GOT_PAYLOAD step that stores the last payload byte and mixes in the
CRC_EXTRA of the message id. -/
lemma parse_payload_last {idx : Nat} {msg : MavMessage} (ck b : Nat)
    (h1 : idx + 1 = msg.len) (h255 : msg.len ≤ 255) :
    mavlink_parse_char ⟨.gotPayload, idx, msg, ck⟩ b =
      (⟨.gotPayload, idx + 1, { msg with payload := msg.payload.set idx b },
        mavlink_crc_accumulate (mavlink_get_crc_extra msg.msgid)
          (mavlink_crc_accumulate b ck)⟩, .incomplete) := by
  have hidx : idx < msg.len := by omega
  have hmod : (idx + 1) % 256 = idx + 1 := Nat.mod_eq_of_lt (by omega)
  simp only [mavlink_parse_char]
  rw [if_pos hidx]
  simp only [hmod]
  rw [if_pos (by omega)]

/-- The GOT_PAYLOAD step after the whole payload: the byte is the low
checksum byte and the parser moves to GOT_CRC1. -/
lemma parse_payload_to_crc {idx : Nat} {msg : MavMessage} (ck b : Nat)
    (h : ¬ idx < msg.len) :
    mavlink_parse_char ⟨.gotPayload, idx, msg, ck⟩ b =
      (⟨.gotCrc1, idx, { msg with checksum := b }, ck⟩, .incomplete) := by
  simp only [mavlink_parse_char]
  rw [if_neg h]

/-- The GOT_CRC1 step: compare the received and the computed checksum. -/
lemma parse_crc1 {idx : Nat} {msg : MavMessage} (ck b : Nat) :
    mavlink_parse_char ⟨.gotCrc1, idx, msg, ck⟩ b =
      if msg.checksum ||| (b <<< 8) = ck then
        (⟨.idle, idx, { msg with checksum := msg.checksum ||| (b <<< 8) }, ck⟩, .ok)
      else
        (⟨.idle, idx, { msg with checksum := msg.checksum ||| (b <<< 8) }, ck⟩, .badCrc) := by
  simp only [mavlink_parse_char]

/-- Feeding the payload bytes of a v1 frame through the GOT_PAYLOAD state:
all results are Incomplete, the write index reaches the declared length,
and the accumulator finishes with the CRC_EXTRA byte mixed in. -/
lemma feed_payload_run : ∀ (q : List Nat) (idx : Nat) (msg : MavMessage) (ck : Nat),
    idx + q.length = msg.len → msg.len ≤ 255 → 1 ≤ q.length →
    ∃ msg2 : MavMessage,
      feedList ⟨.gotPayload, idx, msg, ck⟩ q =
        (⟨.gotPayload, msg.len, msg2,
          mavlink_crc_accumulate (mavlink_get_crc_extra msg.msgid) (crcFold ck q)⟩,
         List.replicate q.length .incomplete) ∧
      msg2.len = msg.len ∧ msg2.magic = msg.magic ∧ msg2.msgid = msg.msgid ∧
      msg2.checksum = msg.checksum := by
  intro q
  induction q with
  | nil => intro idx msg ck _ _ h1; simp at h1
  | cons b rest ih =>
    intro idx msg ck hlen h255 _
    simp only [List.length_cons] at hlen
    rw [feedList_cons]
    rcases List.eq_nil_or_concat rest with hrest | hcc
    · subst hrest
      simp only [List.length_nil] at hlen
      rw [parse_payload_last ck b (by omega) h255]
      refine ⟨{ msg with payload := msg.payload.set idx b }, ?_, by simp, by simp, by simp, by simp⟩
      simp [feedList_nil, crcFold, List.replicate]
      omega
    · have hr1 : 1 ≤ rest.length := by
        rcases hcc with ⟨l, x, hx⟩
        subst hx
        simp
      rw [parse_payload_mid ck b (by omega) h255]
      obtain ⟨msg2, heq, hl, hm, hi, hc⟩ :=
        ih (idx + 1) { msg with payload := msg.payload.set idx b } (mavlink_crc_accumulate b ck)
          (by simp; omega) (by simpa using h255) hr1
      simp only at heq
      refine ⟨msg2, ?_, by simpa using hl, by simpa using hm, by simpa using hi, by simpa using hc⟩
      rw [heq]
      simp [crcFold_cons, List.replicate]

lemma replicate_append_cons {A : Type} (n : Nat) (a : A) (t : List A) :
    List.replicate n a ++ (a :: t) = a :: (List.replicate n a ++ t) := by
  induction n with
  | zero => rfl
  | succ m ih => simp [List.replicate_succ, ih]

/-- The parser's CRC of a v1 frame: header and payload folded from 0xFFFF,
then the message's CRC_EXTRA. -/
def v1ParserCrc (sq sy cp mid : Nat) (payload : List Nat) : Nat :=
  mavlink_crc_accumulate (mavlink_get_crc_extra mid)
    (crcFold (crcFold 0xFFFF [payload.length, sq, sy, cp, mid]) payload)

/-- Complete run of the parser over a v1 frame with at least one payload
byte: every byte but the last yields Incomplete, the last checksum byte
yields OK or BadChecksum by comparing the received and computed CRC, and
the parser returns to Idle either way. -/
lemma feed_v1_frame (p : MavParser) (hp : p.state = .idle) (sq sy cp mid ckLo ckHi : Nat)
    (payload : List Nat) (h1 : 1 ≤ payload.length) (h255 : payload.length ≤ 255) :
    (feedList p ([0xFE, payload.length, sq, sy, cp, mid] ++ payload ++ [ckLo, ckHi])).2 =
      List.replicate (7 + payload.length) .incomplete ++
        [if ckLo ||| (ckHi <<< 8) = v1ParserCrc sq sy cp mid payload then .ok else .badCrc] ∧
    (feedList p ([0xFE, payload.length, sq, sy, cp, mid] ++ payload ++ [ckLo, ckHi])).1.state = .idle := by
  rw [feedList_append, feedList_append]
  rw [feed_v1_header p hp payload.length sq sy cp mid h1]
  simp only
  obtain ⟨msg2, heq, hl, hm, hi, hc⟩ :=
    feed_payload_run payload 0
      { magic := 0xFE, len := payload.length, incompat_flags := 0, compat_flags := 0,
        seq := sq, sysid := sy, compid := cp, msgid := mid,
        payload := p.msg.payload, checksum := p.msg.checksum }
      (crcFold 0xFFFF [payload.length, sq, sy, cp, mid])
      (by simp) (by simpa using h255) h1
  simp only at heq
  have hl2 : msg2.len = payload.length := by simpa using hl
  rw [heq]
  simp only
  rw [feedList_cons]
  rw [parse_payload_to_crc _ ckLo (by omega)]
  simp only
  rw [feedList_cons]
  rw [parse_crc1]
  simp only at hi
  constructor
  · simp only [feedList_nil, apply_ite Prod.snd, apply_ite Prod.fst]
    simp only [hi, v1ParserCrc]
    split
    · simp [List.replicate_add, List.replicate, replicate_append_cons]
    · simp [List.replicate_add, List.replicate, replicate_append_cons]
  · simp only [feedList_nil, apply_ite Prod.fst]
    split
    · simp
    · simp

/-! ## Parser claims (C1, C5, C6, C9) -/


lemma mavlink_get_crc_extra_lt (m : Nat) : mavlink_get_crc_extra m < 256 := by
  unfold mavlink_get_crc_extra
  by_cases h0 : m = 0
  · simp [*]
  by_cases h1 : m = 1
  · simp [*]
  by_cases h2 : m = 2
  · simp [*]
  by_cases h4 : m = 4
  · simp [*]
  by_cases h24 : m = 24
  · simp [*]
  by_cases h30 : m = 30
  · simp [*]
  by_cases h33 : m = 33
  · simp [*]
  by_cases h35 : m = 35
  · simp [*]
  by_cases h36 : m = 36
  · simp [*]
  by_cases h65 : m = 65
  · simp [*]
  by_cases h74 : m = 74
  · simp [*]
  by_cases h76 : m = 76
  · simp [*]
  by_cases h77 : m = 77
  · simp [*]
  by_cases h147 : m = 147
  · simp [*]
  by_cases h253 : m = 253
  · simp [*]
  simp [*]

lemma drop_eq_get_cons2 {l : List Nat} {n : Nat} (h : n < l.length) :
    l.drop n = l.get ⟨n, h⟩ :: l.drop (n + 1) := by
  rw [List.get_eq_getElem]
  exact List.drop_eq_getElem_cons h

/-- Feeding a spec-valid v1 frame (correct checksum including CRC_EXTRA)
with nonempty payload from an idle parser yields Incomplete everywhere but
on the final checksum byte, which yields OK, and returns the parser to
Idle. -/
lemma feed_specV1 (p : MavParser) (hp : p.state = .idle) (sq sy cp mid : Nat)
    (payload : List Nat) (h1 : 1 ≤ payload.length) (h255 : payload.length ≤ 255) :
    (feedList p (specV1FrameBytes sq sy cp mid payload)).2 =
      List.replicate (7 + payload.length) .incomplete ++ [.ok] ∧
    (feedList p (specV1FrameBytes sq sy cp mid payload)).1.state = .idle := by
  unfold specV1FrameBytes
  simp only
  set ck := mavlink_crc_calculate
    ([payload.length, sq, sy, cp, mid] ++ payload ++ [mavlink_get_crc_extra mid]) with hck
  have hckv : ck = v1ParserCrc sq sy cp mid payload := by
    rw [hck]
    unfold mavlink_crc_calculate v1ParserCrc
    rw [crcFold_append, crcFold_append]
    rfl
  have hcond : ck % 256 ||| ((ck >>> 8) <<< 8) = v1ParserCrc sq sy cp mid payload := by
    rw [lo_or_hi_shift, hckv]
  have := feed_v1_frame p hp sq sy cp mid (ck % 256) (ck >>> 8) payload h1 h255
  rw [hcond] at this
  simpa using this

/-- C1: claimed for all valid v1/v2 frames, but the code rejects the valid
v1 frame with empty payload (CRC_EXTRA is never mixed in on the len = 0
path) and never completes the valid v2 HEARTBEAT frame (the GOT_MSGID3
case resets packet_idx and never advances to GOT_PAYLOAD for v2 payloads
of two or more bytes), so no FrameReady is ever produced for it. -/
theorem c1_parser_rejects_valid_frames :
    (feedList mavlink_parser_init (specV1FrameBytes 1 1 1 0 [])).2.getLast? = some .badCrc ∧
    (feedList mavlink_parser_init
        (specV2FrameBytes 0 0 1 1 1 0 [9, 3, 0, 0, 0, 2, 3, 5, 3])).2.count .ok = 0 := by
  decide

/-- C5 counterexample: a valid v2 frame with payload [7, 8] and its first
payload byte changed from 7 to 9; the final checksum byte yields
Incomplete, not BadChecksum, because the parser is stuck in GOT_MSGID3. -/
theorem c5_counterexample :
    (feedList mavlink_parser_init ((specV2FrameBytes 0 0 1 1 1 0 [7, 8]).set 10 9)).2.getLast?
        = some .incomplete ∧
    (feedList mavlink_parser_init ((specV2FrameBytes 0 0 1 1 1 0 [7, 8]).set 10 9)).2.getLast?
        ≠ some .badCrc := by
  decide

/-- C5 (amended to v1): flipping any single payload byte of a valid v1
frame with at least one payload byte makes the parser return BadChecksum
on the final checksum byte and reset to Idle. -/
theorem c5_corrupted_v1_frame_bad_crc (sq sy cp mid j v : Nat) (payload : List Nat)
    (h1 : 1 ≤ payload.length) (h255 : payload.length ≤ 255)
    (hj : j < payload.length) (hv : v < 256)
    (hbytes : ∀ b ∈ payload, b < 256)
    (hne : v ≠ payload.get ⟨j, hj⟩) :
    (feedList mavlink_parser_init
        ([0xFE, payload.length, sq, sy, cp, mid] ++ payload.set j v ++
          [(mavlink_crc_calculate
              ([payload.length, sq, sy, cp, mid] ++ payload ++ [mavlink_get_crc_extra mid])) % 256,
           (mavlink_crc_calculate
              ([payload.length, sq, sy, cp, mid] ++ payload ++ [mavlink_get_crc_extra mid])) >>> 8])).2.getLast?
      = some .badCrc ∧
    (feedList mavlink_parser_init
        ([0xFE, payload.length, sq, sy, cp, mid] ++ payload.set j v ++
          [(mavlink_crc_calculate
              ([payload.length, sq, sy, cp, mid] ++ payload ++ [mavlink_get_crc_extra mid])) % 256,
           (mavlink_crc_calculate
              ([payload.length, sq, sy, cp, mid] ++ payload ++ [mavlink_get_crc_extra mid])) >>> 8])).1.state
      = .idle := by
  set ck := mavlink_crc_calculate
    ([payload.length, sq, sy, cp, mid] ++ payload ++ [mavlink_get_crc_extra mid]) with hck
  have hsetlen : (payload.set j v).length = payload.length := by simp
  have hrun := feed_v1_frame mavlink_parser_init rfl sq sy cp mid (ck % 256) (ck >>> 8)
    (payload.set j v) (by omega) (by omega)
  rw [hsetlen] at hrun
  -- the received checksum is the valid one of the original payload
  have hrecv : ck % 256 ||| ((ck >>> 8) <<< 8) = ck := lo_or_hi_shift ck
  -- and it differs from the parser's CRC of the corrupted payload
  have hckv : ck = v1ParserCrc sq sy cp mid payload := by
    rw [hck]
    unfold mavlink_crc_calculate v1ParserCrc
    rw [crcFold_append, crcFold_append]
    rfl
  have hne2 : v1ParserCrc sq sy cp mid payload ≠ v1ParserCrc sq sy cp mid (payload.set j v) := by
    unfold v1ParserCrc
    rw [hsetlen]
    set c0 := crcFold 0xFFFF [payload.length, sq, sy, cp, mid] with hc0
    have hc0lt : c0 < 65536 := crcFold_lt (by norm_num) _
    have hdecomp1 : payload = payload.take j ++ payload.get ⟨j, hj⟩ :: payload.drop (j + 1) := by
      conv_lhs => rw [← List.take_append_drop j payload]
      rw [drop_eq_get_cons2 hj]
    have hdecomp2 : payload.set j v = payload.take j ++ v :: payload.drop (j + 1) :=
      List.set_eq_take_cons_drop v hj
    have cp0lt : crcFold c0 (payload.take j) < 65536 := crcFold_lt hc0lt _
    have hpj : payload.get ⟨j, hj⟩ < 256 := hbytes _ (payload.get_mem j hj)
    have hstep : mavlink_crc_accumulate (payload.get ⟨j, hj⟩) (crcFold c0 (payload.take j)) ≠
        mavlink_crc_accumulate v (crcFold c0 (payload.take j)) :=
      crc_acc_inj_byte hpj hv cp0lt (fun h => hne h.symm)
    have e1 : crcFold c0 payload =
        crcFold (mavlink_crc_accumulate (payload.get ⟨j, hj⟩) (crcFold c0 (payload.take j)))
          (payload.drop (j + 1)) := by
      conv_lhs => rw [hdecomp1]
      rw [crcFold_append, crcFold_cons]
    have e2 : crcFold c0 (payload.set j v) =
        crcFold (mavlink_crc_accumulate v (crcFold c0 (payload.take j)))
          (payload.drop (j + 1)) := by
      rw [hdecomp2, crcFold_append, crcFold_cons]
    have hfold : crcFold c0 payload ≠ crcFold c0 (payload.set j v) := by
      rw [e1, e2]
      exact crcFold_inj
        (fun x hx => hbytes x (List.drop_subset _ _ hx))
        (crc_acc_lt _ _) (crc_acc_lt _ _) hstep
    exact crc_acc_inj_crc (mavlink_get_crc_extra_lt mid)
      (crcFold_lt hc0lt _) (crcFold_lt hc0lt _) hfold
  rw [hrecv, if_neg (fun h => hne2 (hckv ▸ h))] at hrun
  exact ⟨by rw [hrun.1]; exact List.getLast?_concat _, hrun.2⟩

/-- C6 counterexample: two valid v2 frames back to back produce zero
FrameReady results, not two, because the parser never completes a v2
frame with a multi-byte payload. -/
theorem c6_counterexample :
    (feedList mavlink_parser_init
        (specV2FrameBytes 0 0 1 1 1 0 [7, 8] ++ specV2FrameBytes 0 0 2 1 1 0 [7, 8])).2.count .ok = 0 ∧
    (feedList mavlink_parser_init
        (specV2FrameBytes 0 0 1 1 1 0 [7, 8] ++ specV2FrameBytes 0 0 2 1 1 0 [7, 8])).2.count .ok ≠ 2 := by
  decide

/-- C6 (amended to v1): two valid v1 frames with nonempty payloads fed
back to back yield exactly two FrameReady results, because the parser
returns to Idle right after completing the first frame. -/
theorem c6_two_v1_frames_two_ok (sq1 sy1 cp1 mid1 sq2 sy2 cp2 mid2 : Nat) (pl1 pl2 : List Nat)
    (h11 : 1 ≤ pl1.length) (h12 : pl1.length ≤ 255)
    (h21 : 1 ≤ pl2.length) (h22 : pl2.length ≤ 255) :
    (feedList mavlink_parser_init
        (specV1FrameBytes sq1 sy1 cp1 mid1 pl1 ++ specV1FrameBytes sq2 sy2 cp2 mid2 pl2)).2.count .ok = 2 ∧
    (feedList mavlink_parser_init
        (specV1FrameBytes sq1 sy1 cp1 mid1 pl1 ++ specV1FrameBytes sq2 sy2 cp2 mid2 pl2)).1.state = .idle := by
  rw [feedList_append]
  obtain ⟨ho1, hs1⟩ := feed_specV1 mavlink_parser_init rfl sq1 sy1 cp1 mid1 pl1 h11 h12
  obtain ⟨ho2, hs2⟩ := feed_specV1 _ hs1 sq2 sy2 cp2 mid2 pl2 h21 h22
  refine ⟨?_, hs2⟩
  simp [ho1, ho2, List.count_append, List.count_replicate]

/-- C6 witness at two concrete frames. -/
theorem c6_witness :
    (1 : Nat) ≤ ([1] : List Nat).length ∧
    ((feedList mavlink_parser_init
        (specV1FrameBytes 3 1 1 0 [1] ++ specV1FrameBytes 4 1 1 0 [2])).2.count .ok = 2 ∧
     (feedList mavlink_parser_init
        (specV1FrameBytes 3 1 1 0 [1] ++ specV1FrameBytes 4 1 1 0 [2])).1.state = .idle) :=
  ⟨by decide,
   c6_two_v1_frames_two_ok 3 1 1 0 4 1 1 0 [1] [2] (by decide) (by decide) (by decide) (by decide)⟩

/-- C5 witness: the v1 frame with payload [7, 8] and its first payload
byte flipped to 9. -/
theorem c5_witness :
    (1 : Nat) ≤ ([7, 8] : List Nat).length ∧
    ((feedList mavlink_parser_init
        ([0xFE, ([7, 8] : List Nat).length, 1, 1, 1, 0] ++ ([7, 8] : List Nat).set 0 9 ++
          [(mavlink_crc_calculate
              ([([7, 8] : List Nat).length, 1, 1, 1, 0] ++ [7, 8] ++ [mavlink_get_crc_extra 0])) % 256,
           (mavlink_crc_calculate
              ([([7, 8] : List Nat).length, 1, 1, 1, 0] ++ [7, 8] ++ [mavlink_get_crc_extra 0])) >>> 8])).2.getLast?
      = some .badCrc ∧
     (feedList mavlink_parser_init
        ([0xFE, ([7, 8] : List Nat).length, 1, 1, 1, 0] ++ ([7, 8] : List Nat).set 0 9 ++
          [(mavlink_crc_calculate
              ([([7, 8] : List Nat).length, 1, 1, 1, 0] ++ [7, 8] ++ [mavlink_get_crc_extra 0])) % 256,
           (mavlink_crc_calculate
              ([([7, 8] : List Nat).length, 1, 1, 1, 0] ++ [7, 8] ++ [mavlink_get_crc_extra 0])) >>> 8])).1.state
      = .idle) :=
  ⟨by decide,
   c5_corrupted_v1_frame_bad_crc 1 1 1 0 0 9 [7, 8] (by decide) (by decide) (by decide)
     (by decide) (by decide) (by decide)⟩

/-! ## C9: payload stores stay inside the 255-byte buffer -/

/-- The two sites of mavlink_parse_char that store into msg.payload, with
the index written: the v2 first-payload-byte store in GOT_MSGID3 (after
packet_idx was reset to 0, guarded by len > 0) and the GOT_PAYLOAD store
(guarded by packet_idx < len). -/
def mavlink_parse_store_idx (p : MavParser) : Option Nat :=
  match p.state with
  | .gotMsgid3 =>
    if p.msg.magic ≠ MAVLINK_STX_V1 ∧ p.msg.len > 0 then some 0 else none
  | .gotPayload =>
    if p.packet_idx < p.msg.len then some p.packet_idx else none
  | _ => none

/-- A store about to happen is in bounds: its index is below the declared
payload length, which itself fits the 255-byte buffer. -/
def payloadStoreOk (p : MavParser) : Bool :=
  match mavlink_parse_store_idx p with
  | some i => decide (i < p.msg.len ∧ p.msg.len ≤ 255)
  | none => true

/-- All stores along a byte stream are in bounds. -/
def payloadStoresOkAlong (p : MavParser) : List Nat → Bool
  | [] => true
  | b :: rest => payloadStoreOk p && payloadStoresOkAlong (mavlink_parse_char p b).1 rest

lemma parse_char_len_lt {p : MavParser} {b : Nat} (hb : b < 256) (hlen : p.msg.len < 256) :
    ((mavlink_parse_char p b).1).msg.len < 256 := by
  obtain ⟨st, idx, msg, ck⟩ := p
  cases st <;> simp only [mavlink_parse_char] <;>
    first
      | (split_ifs <;> simp_all)
      | simp_all

lemma payloadStoreOk_of_len {p : MavParser} (hlen : p.msg.len < 256) : payloadStoreOk p = true := by
  obtain ⟨st, idx, msg, ck⟩ := p
  unfold payloadStoreOk mavlink_parse_store_idx
  cases st <;> simp_all <;> split_ifs <;> simp_all <;> omega

lemma payloadStoresOkAlong_true : ∀ (bs : List Nat) (p : MavParser),
    (∀ b ∈ bs, b < 256) → p.msg.len < 256 → payloadStoresOkAlong p bs = true := by
  intro bs
  induction bs with
  | nil => intro p _ _; rfl
  | cons b rest ih =>
    intro p hbs hlen
    unfold payloadStoresOkAlong
    rw [payloadStoreOk_of_len hlen, Bool.true_and]
    exact ih _ (fun x hx => hbs x (by simp [hx]))
      (parse_char_len_lt (hbs b (by simp)) hlen)

/-- C9: over any byte stream fed from the initial parser state, every
payload store of mavlink_parse_char writes at an index strictly below the
declared payload length, which is at most 255, so no store leaves the
255-byte payload buffer. -/
theorem c9_payload_stores_in_bounds (bs : List Nat) (hbs : ∀ b ∈ bs, b < 256) :
    payloadStoresOkAlong mavlink_parser_init bs = true :=
  payloadStoresOkAlong_true bs mavlink_parser_init hbs (by norm_num [mavlink_parser_init])

/-- C9 witness on a concrete v1 frame with one payload byte. -/
theorem c9_witness :
    (∀ b ∈ specV1FrameBytes 1 1 1 0 [42], b < 256) ∧
    payloadStoresOkAlong mavlink_parser_init (specV1FrameBytes 1 1 1 0 [42]) = true :=
  ⟨by decide, c9_payload_stores_in_bounds _ (by decide)⟩


/-! ## RTSP session state machine, from src/rtsp_server.c -/

/-- rtsp_client_state_t. -/
inductive RtspClientState where
  | init
  | ready
  | playing
  | teardown
deriving DecidableEq

/-- The fields of rtsp_client_t that the request handlers and the RTP
packetizer read or write (sockets are modelled by their open/closed
status). -/
structure RtspClient where
  state : RtspClientState
  session_id : Nat
  cseq : Nat
  rtp_port : Nat
  rtcp_port : Nat
  rtp_socket_open : Bool
  ssrc : Nat
  rtp_sequence : Nat
  rtp_timestamp : Nat
  frames_sent : Nat
  bytes_sent : Nat
deriving DecidableEq

/-- A parsed RTSP request line.  For SETUP, the parse of the Transport
header's client_port range: none when the header or the port list is
missing or unparseable (the three 400 paths of handle_setup), some
(rtp, rtcp) when sscanf succeeded (rtcp may be 0, handled by the code). -/
inductive RtspRequest where
  | options
  | describe
  | setup (transport : Option (Nat × Nat))
  | play
  | teardown
  | other
deriving DecidableEq

/-- handle_options: 200, no state change. -/
def handle_options (c : RtspClient) : RtspClient × Nat := (c, 200)

/-- handle_describe: 200 with SDP body, no state change. -/
def handle_describe (c : RtspClient) : RtspClient × Nat := (c, 200)

/-- handle_setup: 400 on an unparseable Transport header; otherwise the
ports (uint16 fields) and the session id are recorded, the RTP socket is
created (500 on failure, with ports and session already updated, state
untouched), the SSRC, sequence and timestamp are reset, the response is
200 and the state becomes Ready.  The fresh session id and SSRC are
parameters (timer/random values in the code). -/
def handle_setup (c : RtspClient) (transport : Option (Nat × Nat)) (sockOk : Bool)
    (newSession newSsrc : Nat) : RtspClient × Nat :=
  match transport with
  | none => (c, 400)
  | some (rtp, rtcp0) =>
    let rtcp := if rtcp0 = 0 then rtp + 1 else rtcp0
    let c := { c with rtp_port := rtp % 65536, rtcp_port := rtcp % 65536 }
    let c := if c.session_id = 0 then { c with session_id := newSession } else c
    if sockOk then
      ({ c with rtp_socket_open := true, ssrc := newSsrc,
                rtp_sequence := 0, rtp_timestamp := 0, state := .ready }, 200)
    else (c, 500)

/-- handle_play: 455 in any state but Ready, otherwise 200 and Playing. -/
def handle_play (c : RtspClient) : RtspClient × Nat :=
  if c.state ≠ .ready then (c, 455)
  else ({ c with state := .playing }, 200)

/-- handle_teardown: 200 and Teardown from any state. -/
def handle_teardown (c : RtspClient) : RtspClient × Nat :=
  ({ c with state := .teardown }, 200)

/-- handle_rtsp_request: record the request's CSeq (uint32), then dispatch
on the method; unrecognized methods get 501. -/
def handle_rtsp_request (c : RtspClient) (req : RtspRequest) (reqCseq : Option Nat)
    (sockOk : Bool) (newSession newSsrc : Nat) : RtspClient × Nat :=
  let c := match reqCseq with
    | some n => { c with cseq := n % 4294967296 }
    | none => c
  match req with
  | .options => handle_options c
  | .describe => handle_describe c
  | .setup transport => handle_setup c transport sockOk newSession newSsrc
  | .play => handle_play c
  | .teardown => handle_teardown c
  | .other => (c, 501)

/-- C3: a PLAY in any state other than Ready is answered 455 and leaves
the session state unchanged (so PLAY before SETUP never reaches Playing),
and SETUP, PLAY, TEARDOWN from Init walk the state through exactly
Init, Ready, Playing, Teardown with 200 responses. -/
theorem c3_rtsp_play_rejected_and_sequence :
    (∀ (c : RtspClient) (reqCseq : Option Nat) (sockOk : Bool) (ns nss : Nat),
      c.state ≠ .ready →
        (handle_rtsp_request c .play reqCseq sockOk ns nss).2 = 455 ∧
        (handle_rtsp_request c .play reqCseq sockOk ns nss).1.state = c.state) ∧
    (∀ (c : RtspClient) (rtp rtcp ns nss : Nat) (cs1 cs2 cs3 : Option Nat),
      c.state = .init →
        ((handle_rtsp_request c (RtspRequest.setup (some (rtp, rtcp))) cs1 true ns nss).2 = 200 ∧
         (handle_rtsp_request c (RtspRequest.setup (some (rtp, rtcp))) cs1 true ns nss).1.state = .ready) ∧
        ((handle_rtsp_request (handle_rtsp_request c (RtspRequest.setup (some (rtp, rtcp))) cs1 true ns nss).1 RtspRequest.play cs2 true ns nss).2 = 200 ∧
         (handle_rtsp_request (handle_rtsp_request c (RtspRequest.setup (some (rtp, rtcp))) cs1 true ns nss).1 RtspRequest.play cs2 true ns nss).1.state = .playing) ∧
        ((handle_rtsp_request (handle_rtsp_request (handle_rtsp_request c (RtspRequest.setup (some (rtp, rtcp))) cs1 true ns nss).1 RtspRequest.play cs2 true ns nss).1 RtspRequest.teardown cs3 true ns nss).2 = 200 ∧
         (handle_rtsp_request (handle_rtsp_request (handle_rtsp_request c (RtspRequest.setup (some (rtp, rtcp))) cs1 true ns nss).1 RtspRequest.play cs2 true ns nss).1 RtspRequest.teardown cs3 true ns nss).1.state = .teardown)) := by
  constructor
  · intro c reqCseq sockOk ns nss hne
    rcases reqCseq with _ | n <;>
      simp [handle_rtsp_request, handle_play, hne]
  · intro c rtp rtcp ns nss cs1 cs2 cs3 hinit
    rcases cs1 with _ | n1 <;> rcases cs2 with _ | n2 <;> rcases cs3 with _ | n3 <;>
      simp [handle_rtsp_request, handle_setup, handle_play, handle_teardown]

/-- C3 witness: a fresh client driven through the handshake. -/
theorem c3_witness :
    ({ state := .init, session_id := 0, cseq := 0, rtp_port := 0, rtcp_port := 0,
       rtp_socket_open := false, ssrc := 0, rtp_sequence := 0, rtp_timestamp := 0,
       frames_sent := 0, bytes_sent := 0 } : RtspClient).state ≠ .ready ∧
    (handle_rtsp_request
      { state := .init, session_id := 0, cseq := 0, rtp_port := 0, rtcp_port := 0,
        rtp_socket_open := false, ssrc := 0, rtp_sequence := 0, rtp_timestamp := 0,
        frames_sent := 0, bytes_sent := 0 } .play (some 1) true 7 9).2 = 455 ∧
    (handle_rtsp_request
      { state := .init, session_id := 0, cseq := 0, rtp_port := 0, rtcp_port := 0,
        rtp_socket_open := false, ssrc := 0, rtp_sequence := 0, rtp_timestamp := 0,
        frames_sent := 0, bytes_sent := 0 } .play (some 1) true 7 9).1.state = .init :=
  ⟨by decide,
   ((c3_rtsp_play_rejected_and_sequence.1
      { state := .init, session_id := 0, cseq := 0, rtp_port := 0, rtcp_port := 0,
        rtp_socket_open := false, ssrc := 0, rtp_sequence := 0, rtp_timestamp := 0,
        frames_sent := 0, bytes_sent := 0 } (some 1) true 7 9) (by decide)).1,
   ((c3_rtsp_play_rejected_and_sequence.1
      { state := .init, session_id := 0, cseq := 0, rtp_port := 0, rtcp_port := 0,
        rtp_socket_open := false, ssrc := 0, rtp_sequence := 0, rtp_timestamp := 0,
        frames_sent := 0, bytes_sent := 0 } (some 1) true 7 9) (by decide)).2⟩

/-! ## RTP/RFC 2435 JPEG packetization, from src/rtsp_server.c -/

/-- RTP_HEADER_SIZE. -/
def RTP_HEADER_SIZE : Nat := 12

/-- RTP_PAYLOAD_TYPE (26 = MJPEG). -/
def RTP_PAYLOAD_TYPE : Nat := 26

/-- RTP_MAX_PACKET_SIZE (MTU minus IP/UDP headers). -/
def RTP_MAX_PACKET_SIZE : Nat := 1400

/-- CAM_FPS from usb_camera.h. -/
def CAM_FPS : Nat := 15

/-- The 8-byte JPEG header size used by send_rtp_frame. -/
def jpeg_header_size : Nat := 8

/-- The largest per-packet JPEG payload: MTU budget minus the 12-byte RTP
header and the 8-byte JPEG header. -/
def max_payload : Nat := RTP_MAX_PACKET_SIZE - RTP_HEADER_SIZE - jpeg_header_size

/-- create_rtp_header: version 2, payload type 26 with the marker bit in
the second byte, then big-endian sequence, timestamp and SSRC; every
stored byte is a uint8_t. -/
def create_rtp_header (seq timestamp ssrc : Nat) (marker : Bool) : List Nat :=
  [0x80,
   RTP_PAYLOAD_TYPE ||| (if marker then 0x80 else 0x00),
   (seq >>> 8) % 256, seq % 256,
   (timestamp >>> 24) % 256, (timestamp >>> 16) % 256, (timestamp >>> 8) % 256, timestamp % 256,
   (ssrc >>> 24) % 256, (ssrc >>> 16) % 256, (ssrc >>> 8) % 256, ssrc % 256]

/-- create_jpeg_header (RFC 2435): type-specific 0, 24-bit fragment
offset big-endian, type, quality, width/8, height/8. -/
def create_jpeg_header (offset tp q width height : Nat) : List Nat :=
  [0, (offset >>> 16) % 256, (offset >>> 8) % 256, offset % 256,
   tp % 256, q % 256, (width / 8) % 256, (height / 8) % 256]

/-- usb_cam_frame_t: the JPEG buffer with its size and dimensions. -/
structure CamFrame where
  data : List Nat
  size : Nat
  width : Nat
  height : Nat
deriving DecidableEq

/-- One RTP packet as assembled in the send loop: the 12-byte RTP header,
the 8-byte JPEG header and the payload fragment. -/
structure RtpPacket where
  rtp : List Nat
  jpeg : List Nat
  payload : List Nat
deriving DecidableEq

/-- The while loop of send_rtp_frame: fragment the remaining bytes,
emitting one packet per iteration; the sequence number is a uint16 that
increments per packet, the timestamp stays fixed for the whole frame and
the marker is set exactly when the remainder fits one packet.  Returns
the packets and the final sequence number. -/
def send_rtp_loop (seq ts ssrc w h : Nat) (data : List Nat) (offset remaining : Nat) :
    List RtpPacket × Nat :=
  if _h0 : remaining = 0 then ([], seq)
  else
    let payload_size := if remaining > max_payload then max_payload else remaining
    let marker : Bool := decide (remaining ≤ max_payload)
    let pkt : RtpPacket :=
      { rtp := create_rtp_header seq ts ssrc marker,
        jpeg := create_jpeg_header offset 1 80 w h,
        payload := (data.drop offset).take payload_size }
    let rest := send_rtp_loop ((seq + 1) % 65536) ts ssrc w h data
      (offset + payload_size) (remaining - payload_size)
    (pkt :: rest.1, rest.2)
termination_by remaining
decreasing_by
  simp only [max_payload, RTP_MAX_PACKET_SIZE, RTP_HEADER_SIZE, jpeg_header_size]
  split <;> omega

/-- send_rtp_frame: only for a Playing client with an open RTP socket;
fragments the frame, then advances the 32-bit timestamp by 90000/CAM_FPS
once, counts the frame and the sent bytes. -/
def send_rtp_frame (c : RtspClient) (frame : CamFrame) : Option (List RtpPacket × RtspClient) :=
  if c.state ≠ .playing then none
  else if ¬ c.rtp_socket_open then none
  else
    let r := send_rtp_loop c.rtp_sequence c.rtp_timestamp c.ssrc
      (frame.width % 65536) (frame.height % 65536) frame.data 0 frame.size
    some (r.1,
      { c with rtp_sequence := r.2,
               rtp_timestamp := (c.rtp_timestamp + 90000 / CAM_FPS) % 4294967296,
               frames_sent := (c.frames_sent + 1) % 4294967296,
               bytes_sent := (c.bytes_sent +
                 (r.1.map (fun pk => RTP_HEADER_SIZE + jpeg_header_size + pk.payload.length)).sum)
                 % 18446744073709551616 })

lemma max_payload_eq : max_payload = 1380 := rfl

/-- Full characterization of the fragmentation loop: at least one packet,
each payload at most max_payload bytes, the k-th packet's RTP header
carries sequence (seq + k) mod 2^16, the fixed timestamp and the marker
exactly on the last packet, its JPEG header carries fragment offset
offset + max_payload * k, the payloads concatenate back to the fragmented
range, and the final sequence is seq plus the packet count, mod 2^16. -/
lemma send_rtp_loop_spec : ∀ (remaining seq ts ssrc w h : Nat) (data : List Nat) (offset : Nat),
    1 ≤ remaining → seq < 65536 →
    1 ≤ (send_rtp_loop seq ts ssrc w h data offset remaining).1.length ∧
    (send_rtp_loop seq ts ssrc w h data offset remaining).2 =
      (seq + (send_rtp_loop seq ts ssrc w h data offset remaining).1.length) % 65536 ∧
    (∀ k pkt, (send_rtp_loop seq ts ssrc w h data offset remaining).1.get? k = some pkt →
      pkt.payload.length ≤ max_payload ∧
      pkt.rtp = create_rtp_header ((seq + k) % 65536) ts ssrc
        (decide (k + 1 = (send_rtp_loop seq ts ssrc w h data offset remaining).1.length)) ∧
      pkt.jpeg = create_jpeg_header (offset + max_payload * k) 1 80 w h) ∧
    ((send_rtp_loop seq ts ssrc w h data offset remaining).1.map RtpPacket.payload).flatten =
      (data.drop offset).take remaining := by
  intro remaining
  induction remaining using Nat.strong_induction_on with
  | _ remaining ih =>
    intro seq ts ssrc w h data offset h1 hseq
    rw [send_rtp_loop]
    rcases Nat.lt_or_ge max_payload remaining with hbig | hsmall
    · -- more than one packet
      have hne : ¬ remaining = 0 := by omega
      have hps : (if remaining > max_payload then max_payload else remaining) = max_payload := by
        rw [if_pos hbig]
      simp only [dif_neg hne, hps]
      obtain ⟨rl1, rv, rk, rj⟩ := ih (remaining - max_payload) (by rw [max_payload_eq] at *; omega)
        ((seq + 1) % 65536) ts ssrc w h data (offset + max_payload)
        (by rw [max_payload_eq] at *; omega) (Nat.mod_lt _ (by norm_num))
      set r := send_rtp_loop ((seq + 1) % 65536) ts ssrc w h data
        (offset + max_payload) (remaining - max_payload) with hr
      refine ⟨by simp, ?_, ?_, ?_⟩
      · simp only [List.length_cons]
        rw [rv, Nat.mod_add_mod]
        congr 1
        omega
      · intro k pkt hpkt
        match k with
        | 0 =>
          simp only [List.get?_cons_zero, Option.some.injEq] at hpkt
          subst hpkt
          refine ⟨by simp [List.length_take], ?_, by simp⟩
          simp only [List.length_cons, Nat.add_zero]
          have e1 : seq % 65536 = seq := Nat.mod_eq_of_lt hseq
          have e2 : (decide (remaining ≤ max_payload) : Bool) = false := by
            rw [decide_eq_false_iff_not]
            omega
          have e3 : (decide (0 + 1 = r.1.length + 1) : Bool) = false := by
            rw [decide_eq_false_iff_not]
            omega
          rw [e1, e2, e3]
        | k' + 1 =>
          simp only [List.get?_cons_succ] at hpkt
          obtain ⟨ra, rb, rc⟩ := rk k' pkt hpkt
          refine ⟨ra, ?_, ?_⟩
          · rw [rb]
            congr 1
            · rw [Nat.mod_add_mod]
              congr 1
              omega
            · simp only [List.length_cons]
              rw [decide_eq_decide]
              omega
          · rw [rc]
            congr 1
            ring
      · simp only [List.map_cons, List.flatten_cons]
        rw [rj]
        have hdd : data.drop (offset + max_payload) = (data.drop offset).drop max_payload := by
          rw [List.drop_drop, Nat.add_comm]
        have hsum : max_payload + (remaining - max_payload) = remaining := by omega
        rw [hdd, ← List.take_add, hsum]
    · -- exactly one (last) packet
      have hne : ¬ remaining = 0 := by omega
      have hps : (if remaining > max_payload then max_payload else remaining) = remaining := by
        rw [if_neg (by omega)]
      have hrec0 : send_rtp_loop ((seq + 1) % 65536) ts ssrc w h data (offset + remaining)
          (remaining - remaining) = ([], (seq + 1) % 65536) := by
        rw [Nat.sub_self, send_rtp_loop]
        simp
      simp only [dif_neg hne, hps, hrec0]
      refine ⟨by simp, by simp [Nat.mod_add_mod], ?_, by simp⟩
      intro k pkt hpkt
      match k with
      | 0 =>
        simp only [List.get?_cons_zero, Option.some.injEq] at hpkt
        subst hpkt
        refine ⟨by simp [List.length_take, hps]; omega, ?_, by simp⟩
        simp only [List.length_cons, List.length_nil, Nat.add_zero]
        have e1 : seq % 65536 = seq := Nat.mod_eq_of_lt hseq
        have e2 : (decide (remaining ≤ max_payload) : Bool) = true := by
          rw [decide_eq_true_eq]
          omega
        rw [e1, e2]
        simp
      | k' + 1 =>
        simp at hpkt

/-- C7: for a frame sent to a Playing client, send_rtp_frame splits the
JPEG payload into fragments of at most 1400 - 12 - 8 bytes; the k-th
packet's RTP header carries the 16-bit sequence c.rtp_sequence + k, the
unchanged 32-bit timestamp, and the marker bit exactly on the final
fragment; each packet's 8-byte RFC 2435 JPEG header carries the 24-bit
fragment offset max_payload * k, type 1, quality 80, width/8 and
height/8; the fragments concatenate to the frame bytes; and the client's
timestamp advances by 90000/CAM_FPS exactly once for the whole frame
while the sequence advances by the packet count. -/
theorem c7_rtp_packetization (c : RtspClient) (frame : CamFrame)
    (hstate : c.state = .playing) (hsock : c.rtp_socket_open = true)
    (hsz : 1 ≤ frame.size) (hseq : c.rtp_sequence < 65536) :
    ∃ pkts c2,
      send_rtp_frame c frame = some (pkts, c2) ∧
      max_payload = RTP_MAX_PACKET_SIZE - RTP_HEADER_SIZE - jpeg_header_size ∧
      1 ≤ pkts.length ∧
      (∀ k pkt, pkts.get? k = some pkt →
        pkt.payload.length ≤ max_payload ∧
        pkt.rtp = create_rtp_header ((c.rtp_sequence + k) % 65536) c.rtp_timestamp c.ssrc
          (decide (k + 1 = pkts.length)) ∧
        pkt.jpeg = create_jpeg_header (max_payload * k) 1 80
          (frame.width % 65536) (frame.height % 65536)) ∧
      (pkts.map RtpPacket.payload).flatten = frame.data.take frame.size ∧
      c2.rtp_timestamp = (c.rtp_timestamp + 90000 / CAM_FPS) % 4294967296 ∧
      c2.rtp_sequence = (c.rtp_sequence + pkts.length) % 65536 := by
  obtain ⟨l1, l2, l3, l4⟩ := send_rtp_loop_spec frame.size c.rtp_sequence c.rtp_timestamp c.ssrc
    (frame.width % 65536) (frame.height % 65536) frame.data 0 hsz hseq
  refine ⟨(send_rtp_loop c.rtp_sequence c.rtp_timestamp c.ssrc
      (frame.width % 65536) (frame.height % 65536) frame.data 0 frame.size).1,
    { c with
      rtp_sequence := (send_rtp_loop c.rtp_sequence c.rtp_timestamp c.ssrc
        (frame.width % 65536) (frame.height % 65536) frame.data 0 frame.size).2,
      rtp_timestamp := (c.rtp_timestamp + 90000 / CAM_FPS) % 4294967296,
      frames_sent := (c.frames_sent + 1) % 4294967296,
      bytes_sent := (c.bytes_sent +
        ((send_rtp_loop c.rtp_sequence c.rtp_timestamp c.ssrc
          (frame.width % 65536) (frame.height % 65536) frame.data 0 frame.size).1.map
            (fun pk => RTP_HEADER_SIZE + jpeg_header_size + pk.payload.length)).sum)
        % 18446744073709551616 },
    ?_, rfl, l1, ?_, ?_, ?_, ?_⟩
  · simp [send_rtp_frame, hstate, hsock]
  · intro k pkt hpkt
    obtain ⟨ra, rb, rc⟩ := l3 k pkt hpkt
    exact ⟨ra, rb, by simpa using rc⟩
  · simpa using l4
  · rfl
  · simpa using l2

/-- C7 witness: a Playing client with sequence 5 and a 3-byte frame. -/
theorem c7_witness :
    ({ state := .playing, session_id := 1, cseq := 0, rtp_port := 5004, rtcp_port := 5005,
       rtp_socket_open := true, ssrc := 11, rtp_sequence := 5, rtp_timestamp := 90,
       frames_sent := 0, bytes_sent := 0 } : RtspClient).state = .playing ∧
    (∃ pkts c2,
      send_rtp_frame
        { state := .playing, session_id := 1, cseq := 0, rtp_port := 5004, rtcp_port := 5005,
          rtp_socket_open := true, ssrc := 11, rtp_sequence := 5, rtp_timestamp := 90,
          frames_sent := 0, bytes_sent := 0 }
        { data := [1, 2, 3], size := 3, width := 640, height := 480 } = some (pkts, c2) ∧
      max_payload = RTP_MAX_PACKET_SIZE - RTP_HEADER_SIZE - jpeg_header_size ∧
      1 ≤ pkts.length ∧
      (∀ k pkt, pkts.get? k = some pkt →
        pkt.payload.length ≤ max_payload ∧
        pkt.rtp = create_rtp_header ((5 + k) % 65536) 90 11 (decide (k + 1 = pkts.length)) ∧
        pkt.jpeg = create_jpeg_header (max_payload * k) 1 80 (640 % 65536) (480 % 65536)) ∧
      (pkts.map RtpPacket.payload).flatten = ([1, 2, 3] : List Nat).take 3 ∧
      c2.rtp_timestamp = (90 + 90000 / CAM_FPS) % 4294967296 ∧
      c2.rtp_sequence = (5 + pkts.length) % 65536) :=
  ⟨by decide,
   c7_rtp_packetization
     { state := .playing, session_id := 1, cseq := 0, rtp_port := 5004, rtcp_port := 5005,
       rtp_socket_open := true, ssrc := 11, rtp_sequence := 5, rtp_timestamp := 90,
       frames_sent := 0, bytes_sent := 0 }
     { data := [1, 2, 3], size := 3, width := 640, height := 480 }
     rfl rfl (by decide) (by decide)⟩


/-! ## MJPEG fanout server, from esp32-usb-cam-rtsp/src/rtsp_server.c -/

/-- esp_err_t values the modelled functions return. -/
inductive EspErr where
  | ok
  | errInvalidArg
  | errInvalidState
  | errNoMem
  | errTimeout
deriving DecidableEq

/-- client_t of the MJPEG server: socket handle (as an id), active flag,
client id. -/
structure StreamClient where
  sock : Nat
  active : Bool
  id : Nat
deriving DecidableEq

/-- The s_server fields that the accept path and rtsp_server_send_frame
touch.  MAX_CLIENTS is the length of the clients list (4 in the code). -/
structure MjpegServer where
  initialized : Bool
  clients : List StreamClient
  client_id_counter : Nat
  frame_seq : Nat
  frame_buf : List Nat
  frame_size : Nat
  frame_buf_capacity : Nat
deriving DecidableEq

/-- What accept_task does with one accepted connection. -/
inductive AcceptOutcome where
  | badRequest
  | accepted (id : Nat)
  | acceptedTaskFailed
  | busy
deriving DecidableEq

/-- The HTTP status line accept_task answers with, when it answers one. -/
def acceptStatus : AcceptOutcome → Option Nat
  | .badRequest => some 400
  | .busy => some 503
  | _ => none

/-- Whether accept_task closes the new socket in this outcome. -/
def acceptCloses : AcceptOutcome → Bool
  | .badRequest => true
  | .busy => true
  | .acceptedTaskFailed => true
  | .accepted _ => false

/-- Activate the first inactive slot with the given socket and the next
client id (the slot-search loop of accept_task); no slot free leaves the
list unchanged. -/
def allocClientSlot (clients : List StreamClient) (sock nextId : Nat) : List StreamClient :=
  match clients with
  | [] => []
  | c :: rest =>
    if ¬ c.active then { sock := sock, active := true, id := nextId } :: rest
    else c :: allocClientSlot rest sock nextId

/-- One accepted connection of accept_task: a request that does not start
with GET is answered 400 and closed; otherwise the first free slot is
taken with id ++client_id_counter and a stream task is started (on task
creation failure the slot is released and the socket closed); with no
free slot the connection is answered 503 Service Unavailable and closed,
and the server state is untouched. -/
def accept_connection (s : MjpegServer) (sock : Nat) (isGet : Bool) (taskOk : Bool) :
    MjpegServer × AcceptOutcome :=
  if ¬ isGet then (s, .badRequest)
  else if (s.clients.any fun c => ¬ c.active) then
    let s2 := { s with clients := allocClientSlot s.clients sock (s.client_id_counter + 1),
                       client_id_counter := s.client_id_counter + 1 }
    if taskOk then (s2, .accepted (s.client_id_counter + 1))
    else ({ s2 with clients := s2.clients.map fun c =>
             if c.sock = sock ∧ c.active then { c with active := false } else c },
          .acceptedTaskFailed)
  else (s, .busy)

/-- rtsp_frame_t as passed to rtsp_server_send_frame: the data pointer
may be null. -/
structure RtspFrameArg where
  dataPresent : Bool
  data : List Nat
  size : Nat
deriving DecidableEq

/-- rtsp_server_send_frame: reject a null/empty/oversized frame without
touching anything; otherwise, under the frame mutex (lockOk), copy the
bytes into the retained buffer, record the size and bump the uint32
frame sequence. -/
def rtsp_server_send_frame (s : MjpegServer) (frame : Option RtspFrameArg) (lockOk : Bool) :
    MjpegServer × EspErr :=
  match frame with
  | none => (s, .errInvalidArg)
  | some f =>
    if ¬ s.initialized ∨ ¬ f.dataPresent ∨ f.size = 0 then (s, .errInvalidArg)
    else if f.size > s.frame_buf_capacity then (s, .errNoMem)
    else if lockOk then
      ({ s with frame_buf := f.data.take f.size ++ s.frame_buf.drop f.size,
                frame_size := f.size,
                frame_seq := (s.frame_seq + 1) % 4294967296 }, .ok)
    else (s, .errTimeout)

/-- C8: when every client slot is active, the next connection with a
valid GET request line is answered 503 and its socket closed, while the
server state, in particular every existing client slot, is unchanged. -/
theorem c8_full_server_rejects_with_busy (s : MjpegServer) (sock : Nat) (taskOk : Bool)
    (hfull : ∀ c ∈ s.clients, c.active = true) :
    (accept_connection s sock true taskOk).2 = .busy ∧
    acceptStatus (accept_connection s sock true taskOk).2 = some 503 ∧
    acceptCloses (accept_connection s sock true taskOk).2 = true ∧
    (accept_connection s sock true taskOk).1 = s := by
  have hnone : (s.clients.any fun c => ¬ c.active) = false := by
    simp only [List.any_eq_false]
    intro c hc
    simp [hfull c hc]
  unfold accept_connection
  rw [hnone]
  simp [acceptStatus, acceptCloses]

/-- C8 witness: a 4-slot server with all slots active. -/
theorem c8_witness :
    (∀ c ∈ ({ initialized := true,
              clients := [⟨10, true, 1⟩, ⟨11, true, 2⟩, ⟨12, true, 3⟩, ⟨13, true, 4⟩],
              client_id_counter := 4, frame_seq := 0, frame_buf := [], frame_size := 0,
              frame_buf_capacity := 25600 } : MjpegServer).clients, c.active = true) ∧
    ((accept_connection
        { initialized := true,
          clients := [⟨10, true, 1⟩, ⟨11, true, 2⟩, ⟨12, true, 3⟩, ⟨13, true, 4⟩],
          client_id_counter := 4, frame_seq := 0, frame_buf := [], frame_size := 0,
          frame_buf_capacity := 25600 } 14 true true).2 = .busy ∧
     acceptStatus (accept_connection
        { initialized := true,
          clients := [⟨10, true, 1⟩, ⟨11, true, 2⟩, ⟨12, true, 3⟩, ⟨13, true, 4⟩],
          client_id_counter := 4, frame_seq := 0, frame_buf := [], frame_size := 0,
          frame_buf_capacity := 25600 } 14 true true).2 = some 503 ∧
     acceptCloses (accept_connection
        { initialized := true,
          clients := [⟨10, true, 1⟩, ⟨11, true, 2⟩, ⟨12, true, 3⟩, ⟨13, true, 4⟩],
          client_id_counter := 4, frame_seq := 0, frame_buf := [], frame_size := 0,
          frame_buf_capacity := 25600 } 14 true true).2 = true ∧
     (accept_connection
        { initialized := true,
          clients := [⟨10, true, 1⟩, ⟨11, true, 2⟩, ⟨12, true, 3⟩, ⟨13, true, 4⟩],
          client_id_counter := 4, frame_seq := 0, frame_buf := [], frame_size := 0,
          frame_buf_capacity := 25600 } 14 true true).1 =
       { initialized := true,
         clients := [⟨10, true, 1⟩, ⟨11, true, 2⟩, ⟨12, true, 3⟩, ⟨13, true, 4⟩],
         client_id_counter := 4, frame_seq := 0, frame_buf := [], frame_size := 0,
         frame_buf_capacity := 25600 }) :=
  ⟨by decide,
   c8_full_server_rejects_with_busy
     { initialized := true,
       clients := [⟨10, true, 1⟩, ⟨11, true, 2⟩, ⟨12, true, 3⟩, ⟨13, true, 4⟩],
       client_id_counter := 4, frame_seq := 0, frame_buf := [], frame_size := 0,
       frame_buf_capacity := 25600 } 14 true (by decide)⟩

/-- C10 counterexample: the frame sequence is a uint32, so from the
reachable state with frame_seq = 2^32 - 1 a successful call wraps the
counter to 0 instead of increasing it by 1. -/
theorem c10_counterexample :
    (rtsp_server_send_frame
      { initialized := true, clients := [], client_id_counter := 0,
        frame_seq := 4294967295, frame_buf := [0], frame_size := 1, frame_buf_capacity := 1 }
      (some { dataPresent := true, data := [7], size := 1 }) true).2 = .ok ∧
    (rtsp_server_send_frame
      { initialized := true, clients := [], client_id_counter := 0,
        frame_seq := 4294967295, frame_buf := [0], frame_size := 1, frame_buf_capacity := 1 }
      (some { dataPresent := true, data := [7], size := 1 }) true).1.frame_seq = 0 ∧
    (rtsp_server_send_frame
      { initialized := true, clients := [], client_id_counter := 0,
        frame_seq := 4294967295, frame_buf := [0], frame_size := 1, frame_buf_capacity := 1 }
      (some { dataPresent := true, data := [7], size := 1 }) true).1.frame_seq ≠ 4294967295 + 1 := by
  refine ⟨rfl, ?_, ?_⟩ <;> simp [rtsp_server_send_frame]

/-- C10 (amended with the uint32 wrap): a null, empty or oversized frame
is rejected with an error code and the stored bytes, stored size and
sequence counter are all unchanged; a successful call advances the
sequence by exactly 1 modulo 2^32, hence by exactly 1 whenever fewer than
2^32 - 1 frames have been published. -/
theorem c10_send_frame_atomic (s : MjpegServer) (frame : Option RtspFrameArg) (lockOk : Bool) :
    ((rtsp_server_send_frame s frame lockOk).2 ≠ .ok →
      (rtsp_server_send_frame s frame lockOk).1 = s) ∧
    (frame = none → (rtsp_server_send_frame s frame lockOk).2 = .errInvalidArg) ∧
    (∀ f, frame = some f → f.size = 0 → (rtsp_server_send_frame s frame lockOk).2 = .errInvalidArg) ∧
    (∀ f, frame = some f → s.initialized = true → f.dataPresent = true →
      f.size > s.frame_buf_capacity → (rtsp_server_send_frame s frame lockOk).2 = .errNoMem) ∧
    ((rtsp_server_send_frame s frame lockOk).2 = .ok →
      (rtsp_server_send_frame s frame lockOk).1.frame_seq = (s.frame_seq + 1) % 4294967296) ∧
    ((rtsp_server_send_frame s frame lockOk).2 = .ok → s.frame_seq < 4294967295 →
      (rtsp_server_send_frame s frame lockOk).1.frame_seq = s.frame_seq + 1) := by
  rcases frame with _ | f
  · simp [rtsp_server_send_frame]
  · refine ⟨?_, by simp, ?_, ?_, ?_, ?_⟩
    · intro h
      revert h
      simp only [rtsp_server_send_frame]
      split_ifs <;> simp_all
    · intro g hg hsz
      simp only [Option.some.injEq] at hg
      subst hg
      simp [rtsp_server_send_frame, hsz]
    · intro g hg hinit hpres hbig
      simp only [Option.some.injEq] at hg
      subst hg
      simp only [rtsp_server_send_frame]
      rw [if_neg (by simp [hinit, hpres]; omega), if_pos hbig]
    · intro h
      revert h
      simp only [rtsp_server_send_frame]
      split_ifs <;> simp_all
    · intro h hlt
      revert h
      simp only [rtsp_server_send_frame]
      split_ifs <;> simp_all
      omega

/-- C10 witness: a rejected oversized frame and a successful publish. -/
theorem c10_witness :
    ((rtsp_server_send_frame
        { initialized := true, clients := [], client_id_counter := 0,
          frame_seq := 6, frame_buf := [0, 0], frame_size := 2, frame_buf_capacity := 2 }
        (some { dataPresent := true, data := [1, 2, 3], size := 3 }) true).2 ≠ .ok →
      (rtsp_server_send_frame
        { initialized := true, clients := [], client_id_counter := 0,
          frame_seq := 6, frame_buf := [0, 0], frame_size := 2, frame_buf_capacity := 2 }
        (some { dataPresent := true, data := [1, 2, 3], size := 3 }) true).1 =
        { initialized := true, clients := [], client_id_counter := 0,
          frame_seq := 6, frame_buf := [0, 0], frame_size := 2, frame_buf_capacity := 2 }) ∧
    ((rtsp_server_send_frame
        { initialized := true, clients := [], client_id_counter := 0,
          frame_seq := 6, frame_buf := [0, 0], frame_size := 2, frame_buf_capacity := 2 }
        (some { dataPresent := true, data := [1, 2, 3], size := 3 }) true).2 = .ok →
      (rtsp_server_send_frame
        { initialized := true, clients := [], client_id_counter := 0,
          frame_seq := 6, frame_buf := [0, 0], frame_size := 2, frame_buf_capacity := 2 }
        (some { dataPresent := true, data := [1, 2, 3], size := 3 }) true).1.frame_seq = 6 + 1) :=
  ⟨(c10_send_frame_atomic
      { initialized := true, clients := [], client_id_counter := 0,
        frame_seq := 6, frame_buf := [0, 0], frame_size := 2, frame_buf_capacity := 2 }
      (some { dataPresent := true, data := [1, 2, 3], size := 3 }) true).1,
   fun h => (c10_send_frame_atomic
      { initialized := true, clients := [], client_id_counter := 0,
        frame_seq := 6, frame_buf := [0, 0], frame_size := 2, frame_buf_capacity := 2 }
      (some { dataPresent := true, data := [1, 2, 3], size := 3 }) true).2.2.2.2.2 h (by decide)⟩

/-! ## Single-slot frame relay, from esp32-usb-cam-rtsp/src/main.c -/

/-- camera_fb_t essentials: the captured JPEG and its dimensions. -/
structure CamCapture where
  data : List Nat
  width : Nat
  height : Nat
deriving DecidableEq

/-- frame_msg_t: the message placed in the single-slot queue; its data
pointer is the shared s_frame_buffer, whose content is part of
RelayState. -/
structure FrameMsg where
  size : Nat
  width : Nat
  height : Nat
  sequence : Nat
deriving DecidableEq

/-- The mutable state of the camera/stream handoff in main.c:
the single-slot queue s_frame_queue, the shared s_frame_buffer with its
size, and the only counters the code keeps: s_frames_captured,
s_frames_sent, and the capture task's local seq (all uint32). -/
structure RelayState where
  slot : Option FrameMsg
  buffer : List Nat
  buffer_size : Nat
  frames_captured : Nat
  frames_sent : Nat
  seq : Nat
deriving DecidableEq

/-- One camera_task iteration with a successful capture and the frame
mutex acquired: count the capture, and if the frame fits the buffer,
copy it and xQueueOverwrite the message into the single-slot queue
(overwriting any unconsumed message); an oversized frame is only
logged. -/
def camera_publish (st : RelayState) (fb : CamCapture) : RelayState :=
  let st := { st with frames_captured := (st.frames_captured + 1) % 4294967296 }
  if fb.data.length ≤ st.buffer_size then
    { st with buffer := fb.data,
              slot := some { size := fb.data.length, width := fb.width, height := fb.height,
                             sequence := st.seq },
              seq := (st.seq + 1) % 4294967296 }
  else st

/-- One stream_sender_task iteration with the frame mutex acquired:
xQueueReceive empties the slot; a message with positive size is handed to
rtsp_server_send_frame (returned here with the buffer bytes it points
at) and counted in s_frames_sent. -/
def relay_consume (st : RelayState) : RelayState × Option (FrameMsg × List Nat) :=
  match st.slot with
  | none => (st, none)
  | some msg =>
    if msg.size > 0 then
      ({ st with slot := none, frames_sent := (st.frames_sent + 1) % 4294967296 },
       some (msg, st.buffer.take msg.size))
    else ({ st with slot := none }, none)

/-- C2 counterexample: publishing twice without a consume does drop the
first frame (the slot already held it and is overwritten), but no drop
counter exists: every counter of the state (frames_captured, frames_sent
and the capture sequence - there are no others in the code) changes
across the overwriting second publish by exactly the same deltas as
across the first, non-overwriting publish, so nothing increments by 1 on
the drop; consume then returns the second frame. -/
theorem c2_counterexample :
    (camera_publish
      { slot := none, buffer := [], buffer_size := 4,
        frames_captured := 0, frames_sent := 0, seq := 0 }
      { data := [1], width := 2, height := 2 }).slot ≠ none ∧
    ((camera_publish (camera_publish
        { slot := none, buffer := [], buffer_size := 4,
          frames_captured := 0, frames_sent := 0, seq := 0 }
        { data := [1], width := 2, height := 2 })
        { data := [9], width := 2, height := 2 }).frames_captured -
      (camera_publish
        { slot := none, buffer := [], buffer_size := 4,
          frames_captured := 0, frames_sent := 0, seq := 0 }
        { data := [1], width := 2, height := 2 }).frames_captured,
     (camera_publish (camera_publish
        { slot := none, buffer := [], buffer_size := 4,
          frames_captured := 0, frames_sent := 0, seq := 0 }
        { data := [1], width := 2, height := 2 })
        { data := [9], width := 2, height := 2 }).frames_sent -
      (camera_publish
        { slot := none, buffer := [], buffer_size := 4,
          frames_captured := 0, frames_sent := 0, seq := 0 }
        { data := [1], width := 2, height := 2 }).frames_sent,
     (camera_publish (camera_publish
        { slot := none, buffer := [], buffer_size := 4,
          frames_captured := 0, frames_sent := 0, seq := 0 }
        { data := [1], width := 2, height := 2 })
        { data := [9], width := 2, height := 2 }).seq -
      (camera_publish
        { slot := none, buffer := [], buffer_size := 4,
          frames_captured := 0, frames_sent := 0, seq := 0 }
        { data := [1], width := 2, height := 2 }).seq) = (1, 0, 1) ∧
    ((camera_publish
        { slot := none, buffer := [], buffer_size := 4,
          frames_captured := 0, frames_sent := 0, seq := 0 }
        { data := [1], width := 2, height := 2 }).frames_captured,
     (camera_publish
        { slot := none, buffer := [], buffer_size := 4,
          frames_captured := 0, frames_sent := 0, seq := 0 }
        { data := [1], width := 2, height := 2 }).frames_sent,
     (camera_publish
        { slot := none, buffer := [], buffer_size := 4,
          frames_captured := 0, frames_sent := 0, seq := 0 }
        { data := [1], width := 2, height := 2 }).seq) = (1, 0, 1) ∧
    (relay_consume (camera_publish (camera_publish
        { slot := none, buffer := [], buffer_size := 4,
          frames_captured := 0, frames_sent := 0, seq := 0 }
        { data := [1], width := 2, height := 2 })
        { data := [9], width := 2, height := 2 })).2 =
      some ({ size := 1, width := 2, height := 2, sequence := 1 }, [9]) := by
  decide

/-- C2 (amended): the second publish overwrites the unconsumed first
frame and a subsequent consume returns the second frame only, never the
first; the code keeps no drop counter (the counter changes of an
overwriting publish equal those of an ordinary publish, see the
counterexample). -/
theorem c2_overwrite_then_consume_returns_second (st : RelayState) (f1 f2 : CamCapture)
    (h1 : f1.data.length ≤ st.buffer_size) (h2 : f2.data.length ≤ st.buffer_size)
    (hsz : 0 < f2.data.length) (hseq : st.seq + 1 < 4294967296) :
    (camera_publish st f1).slot =
      some { size := f1.data.length, width := f1.width, height := f1.height,
             sequence := st.seq } ∧
    (relay_consume (camera_publish (camera_publish st f1) f2)).2 =
      some ({ size := f2.data.length, width := f2.width, height := f2.height,
              sequence := st.seq + 1 }, f2.data) ∧
    (relay_consume (camera_publish (camera_publish st f1) f2)).2 ≠
      some ({ size := f1.data.length, width := f1.width, height := f1.height,
              sequence := st.seq }, f1.data) := by
  have e1 : camera_publish st f1 =
      { st with frames_captured := (st.frames_captured + 1) % 4294967296,
                buffer := f1.data,
                slot := some { size := f1.data.length, width := f1.width, height := f1.height,
                               sequence := st.seq },
                seq := (st.seq + 1) % 4294967296 } := by
    simp [camera_publish, h1]
  have hmod : (st.seq + 1) % 4294967296 = st.seq + 1 := Nat.mod_eq_of_lt hseq
  have e2 : camera_publish (camera_publish st f1) f2 =
      { st with frames_captured := ((st.frames_captured + 1) % 4294967296 + 1) % 4294967296,
                buffer := f2.data,
                slot := some { size := f2.data.length, width := f2.width, height := f2.height,
                               sequence := st.seq + 1 },
                seq := ((st.seq + 1) + 1) % 4294967296 } := by
    rw [e1]
    simp [camera_publish, h2, hmod]
  refine ⟨by rw [e1], ?_, ?_⟩
  · rw [e2]
    simp [relay_consume, hsz, List.take_length]
  · rw [e2]
    simp [relay_consume, hsz, List.take_length]

/-- C2 witness for the amended statement. -/
theorem c2_witness :
    (0 : Nat) < ([9] : List Nat).length ∧
    ((camera_publish
        { slot := none, buffer := [], buffer_size := 4,
          frames_captured := 0, frames_sent := 0, seq := 0 }
        { data := [1], width := 2, height := 2 }).slot =
      some { size := ([1] : List Nat).length, width := 2, height := 2, sequence := 0 } ∧
     (relay_consume (camera_publish (camera_publish
        { slot := none, buffer := [], buffer_size := 4,
          frames_captured := 0, frames_sent := 0, seq := 0 }
        { data := [1], width := 2, height := 2 })
        { data := [9], width := 2, height := 2 })).2 =
      some ({ size := ([9] : List Nat).length, width := 2, height := 2, sequence := 0 + 1 }, [9]) ∧
     (relay_consume (camera_publish (camera_publish
        { slot := none, buffer := [], buffer_size := 4,
          frames_captured := 0, frames_sent := 0, seq := 0 }
        { data := [1], width := 2, height := 2 })
        { data := [9], width := 2, height := 2 })).2 ≠
      some ({ size := ([1] : List Nat).length, width := 2, height := 2, sequence := 0 }, [1])) :=
  ⟨by decide,
   c2_overwrite_then_consume_returns_second
     { slot := none, buffer := [], buffer_size := 4,
       frames_captured := 0, frames_sent := 0, seq := 0 }
     { data := [1], width := 2, height := 2 } { data := [9], width := 2, height := 2 }
     (by decide) (by decide) (by decide) (by decide)⟩


/-! ## GCS peer table of the telemetry bridge, from src/mavlink_telemetry.c -/

/-- gcs_client_internal_t: active flag, peer address (ip, port), last-seen
timestamp in ms, and the two message counters. -/
structure GcsClient where
  active : Bool
  ip : Nat
  port : Nat
  last_seen : Nat
  messages_sent : Nat
  messages_received : Nat
deriving DecidableEq

/-- Wrapping uint64 subtraction, as computed by now - last_seen in C. -/
def u64_sub (a b : Nat) : Nat :=
  ((a % 18446744073709551616) + 18446744073709551616 - (b % 18446744073709551616))
    % 18446744073709551616

/-- The zeroed table of MAVLINK_MAX_GCS_CLIENTS = 4 slots. -/
def gcsInit : List GcsClient :=
  List.replicate 4 { active := false, ip := 0, port := 0, last_seen := 0,
                     messages_sent := 0, messages_received := 0 }

/-- find_gcs_client succeeds: some slot is active with the given address. -/
def gcsFound (tbl : List GcsClient) (ip port : Nat) : Bool :=
  tbl.any fun c => c.active && (c.ip == ip && c.port == port)

/-- The refresh path of add_gcs_client: update last_seen of the first
active slot matching the address. -/
def gcsRefresh (tbl : List GcsClient) (ip port now : Nat) : List GcsClient :=
  match tbl with
  | [] => []
  | c :: rest =>
    if c.active && (c.ip == ip && c.port == port) then { c with last_seen := now } :: rest
    else c :: gcsRefresh rest ip port now

/-- The new-slot path of add_gcs_client: activate the first inactive slot
with the address, fresh last_seen, zeroed counters; a full table is left
unchanged. -/
def gcsActivate (tbl : List GcsClient) (ip port now : Nat) : List GcsClient :=
  match tbl with
  | [] => []
  | c :: rest =>
    if c.active = false then
      { active := true, ip := ip, port := port, last_seen := now,
        messages_sent := 0, messages_received := 0 } :: rest
    else c :: gcsActivate rest ip port now

/-- add_gcs_client: refresh the existing entry if the address is already
tracked, else take the first free slot. -/
def add_gcs_client (tbl : List GcsClient) (ip port now : Nat) : List GcsClient :=
  if gcsFound tbl ip port then gcsRefresh tbl ip port now
  else gcsActivate tbl ip port now

/-- The messages_received increment udp_rx_task performs on the client
returned by add_gcs_client (the first active match after the add). -/
def gcsBumpReceived (tbl : List GcsClient) (ip port : Nat) : List GcsClient :=
  match tbl with
  | [] => []
  | c :: rest =>
    if c.active && (c.ip == ip && c.port == port) then
      { c with messages_received := (c.messages_received + 1) % 4294967296 } :: rest
    else c :: gcsBumpReceived rest ip port

/-- One inbound datagram of udp_rx_task, as far as the peer table is
concerned. -/
def udp_datagram_step (tbl : List GcsClient) (ip port now : Nat) : List GcsClient :=
  gcsBumpReceived (add_gcs_client tbl ip port now) ip port

/-- cleanup_stale_gcs_clients: deactivate every active slot whose age
exceeds the 30000 ms timeout. -/
def cleanup_stale_gcs_clients (tbl : List GcsClient) (now : Nat) : List GcsClient :=
  tbl.map fun c =>
    if c.active = true ∧ u64_sub now c.last_seen > 30000 then { c with active := false } else c

/-- The sequence of events that touch the peer table: inbound datagrams
and periodic sweeps. -/
inductive GcsOp where
  | datagram (ip port now : Nat)
  | sweep (now : Nat)

/-- Run a sequence of table events. -/
def runGcsOps (tbl : List GcsClient) : List GcsOp → List GcsClient
  | [] => tbl
  | .datagram ip port now :: rest => runGcsOps (udp_datagram_step tbl ip port now) rest
  | .sweep now :: rest => runGcsOps (cleanup_stale_gcs_clients tbl now) rest

/-- The addresses forward_to_gcs sends to: those of the active slots. -/
def forwardTargets (tbl : List GcsClient) : List (Nat × Nat) :=
  (tbl.filter fun c => c.active).map fun c => (c.ip, c.port)

/-- At most one active slot per (address, port). -/
def GcsNoDup (tbl : List GcsClient) : Prop :=
  ∀ (i j : Nat) (ci cj : GcsClient), i ≠ j → tbl[i]? = some ci → tbl[j]? = some cj →
    ci.active = true → cj.active = true → (ci.ip, ci.port) ≠ (cj.ip, cj.port)

lemma gcsRefresh_getElem? : ∀ (tbl : List GcsClient) (ip port now k : Nat),
    (gcsRefresh tbl ip port now)[k]? = tbl[k]? ∨
    (∃ c, tbl[k]? = some c ∧ (gcsRefresh tbl ip port now)[k]? = some { c with last_seen := now }) := by
  intro tbl
  induction tbl with
  | nil => intro ip port now k; left; rfl
  | cons c rest ih =>
    intro ip port now k
    unfold gcsRefresh
    split_ifs with h
    · match k with
      | 0 => right; exact ⟨c, by simp, by simp⟩
      | k' + 1 => left; simp
    · match k with
      | 0 => left; simp
      | k' + 1 =>
        rcases ih ip port now k' with h2 | ⟨c2, hc2, hc3⟩
        · left; simpa using h2
        · right; exact ⟨c2, by simpa using hc2, by simpa using hc3⟩

lemma gcsBumpReceived_getElem? : ∀ (tbl : List GcsClient) (ip port k : Nat),
    (gcsBumpReceived tbl ip port)[k]? = tbl[k]? ∨
    (∃ c, tbl[k]? = some c ∧ (gcsBumpReceived tbl ip port)[k]? =
      some { c with messages_received := (c.messages_received + 1) % 4294967296 }) := by
  intro tbl
  induction tbl with
  | nil => intro ip port k; left; rfl
  | cons c rest ih =>
    intro ip port k
    unfold gcsBumpReceived
    split_ifs with h
    · match k with
      | 0 => right; exact ⟨c, by simp, by simp⟩
      | k' + 1 => left; simp
    · match k with
      | 0 => left; simp
      | k' + 1 =>
        rcases ih ip port k' with h2 | ⟨c2, hc2, hc3⟩
        · left; simpa using h2
        · right; exact ⟨c2, by simpa using hc2, by simpa using hc3⟩

lemma gcsActivate_getElem? : ∀ (tbl : List GcsClient) (ip port now : Nat),
    (∀ k : Nat, (gcsActivate tbl ip port now)[k]? = tbl[k]?) ∨
    (∃ m cm, tbl[m]? = some cm ∧ cm.active = false ∧
      (gcsActivate tbl ip port now)[m]? =
        some { active := true, ip := ip, port := port, last_seen := now,
               messages_sent := 0, messages_received := 0 } ∧
      ∀ k : Nat, k ≠ m → (gcsActivate tbl ip port now)[k]? = tbl[k]?) := by
  intro tbl
  induction tbl with
  | nil => intro ip port now; left; intro k; rfl
  | cons c rest ih =>
    intro ip port now
    unfold gcsActivate
    split_ifs with h
    · right
      refine ⟨0, c, by simp, h, by simp, ?_⟩
      intro k hk
      match k with
      | 0 => exact absurd rfl hk
      | k' + 1 => simp
    · rcases ih ip port now with h2 | ⟨m, cm, hm1, hm2, hm3, hm4⟩
      · left
        intro k
        match k with
        | 0 => simp
        | k' + 1 => simpa using h2 k'
      · right
        refine ⟨m + 1, cm, by simpa using hm1, hm2, by simpa using hm3, ?_⟩
        intro k hk
        match k with
        | 0 => simp
        | k' + 1 => simpa using hm4 k' (by omega)

lemma gcsFound_false_no_match {tbl : List GcsClient} {ip port : Nat}
    (h : gcsFound tbl ip port = false) :
    ∀ (k : Nat) (c : GcsClient), tbl[k]? = some c → c.active = true →
      ¬ (c.ip = ip ∧ c.port = port) := by
  intro k c hk hact hmatch
  unfold gcsFound at h
  rw [List.any_eq_false] at h
  have := h c (List.getElem?_mem hk)
  simp [hact, hmatch.1, hmatch.2] at this

/-- GcsNoDup transfers along any pointwise transformation preserving the
active flag and the address. -/
lemma GcsNoDup_of_pointwise {tbl tbl2 : List GcsClient}
    (hpt : ∀ (k : Nat) (c2 : GcsClient), tbl2[k]? = some c2 →
      ∃ c, tbl[k]? = some c ∧ (c2.active = true → c.active = true) ∧
        c2.ip = c.ip ∧ c2.port = c.port)
    (hinv : GcsNoDup tbl) : GcsNoDup tbl2 := by
  intro i j ci cj hij hi hj hact_i hact_j
  obtain ⟨di, hdi, hai, hii, hpi⟩ := hpt i ci hi
  obtain ⟨dj, hdj, haj, hij2, hpj⟩ := hpt j cj hj
  have := hinv i j di dj hij hdi hdj (hai hact_i) (haj hact_j)
  rw [hii, hpi, hij2, hpj]
  exact this

lemma GcsNoDup_refresh {tbl : List GcsClient} {ip port now : Nat} (hinv : GcsNoDup tbl) :
    GcsNoDup (gcsRefresh tbl ip port now) := by
  refine GcsNoDup_of_pointwise ?_ hinv
  intro k c2 hk
  rcases gcsRefresh_getElem? tbl ip port now k with h | ⟨c, hc1, hc2⟩
  · exact ⟨c2, by rw [← h]; exact hk, fun hh => hh, rfl, rfl⟩
  · rw [hk] at hc2
    refine ⟨c, hc1, ?_⟩
    cases hc2
    exact ⟨fun hh => hh, rfl, rfl⟩

lemma GcsNoDup_bump {tbl : List GcsClient} {ip port : Nat} (hinv : GcsNoDup tbl) :
    GcsNoDup (gcsBumpReceived tbl ip port) := by
  refine GcsNoDup_of_pointwise ?_ hinv
  intro k c2 hk
  rcases gcsBumpReceived_getElem? tbl ip port k with h | ⟨c, hc1, hc2⟩
  · exact ⟨c2, by rw [← h]; exact hk, fun hh => hh, rfl, rfl⟩
  · rw [hk] at hc2
    refine ⟨c, hc1, ?_⟩
    cases hc2
    exact ⟨fun hh => hh, rfl, rfl⟩

lemma GcsNoDup_activate {tbl : List GcsClient} {ip port now : Nat}
    (hnf : gcsFound tbl ip port = false) (hinv : GcsNoDup tbl) :
    GcsNoDup (gcsActivate tbl ip port now) := by
  rcases gcsActivate_getElem? tbl ip port now with hall | ⟨m, cm, _hm1, _hm2, hm3, hm4⟩
  · intro i j ci cj hij hi hj hact_i hact_j
    exact hinv i j ci cj hij (by rw [← hall i]; exact hi) (by rw [← hall j]; exact hj) hact_i hact_j
  · intro i j ci cj hij hi hj hact_i hact_j
    by_cases hi_m : i = m
    · subst hi_m
      rw [hm3] at hi
      cases hi
      have hj2 : tbl[j]? = some cj := by rw [← hm4 j (fun hh => hij hh.symm)]; exact hj
      have := gcsFound_false_no_match hnf j cj hj2 hact_j
      intro heq
      apply this
      have h1 : cj.ip = ip := by
        have := congrArg Prod.fst heq
        simpa using this.symm
      have h2 : cj.port = port := by
        have := congrArg Prod.snd heq
        simpa using this.symm
      exact ⟨h1, h2⟩
    · by_cases hj_m : j = m
      · subst hj_m
        rw [hm3] at hj
        cases hj
        have hi2 : tbl[i]? = some ci := by rw [← hm4 i hi_m]; exact hi
        have := gcsFound_false_no_match hnf i ci hi2 hact_i
        intro heq
        apply this
        have h1 : ci.ip = ip := by
          have := congrArg Prod.fst heq
          simpa using this
        have h2 : ci.port = port := by
          have := congrArg Prod.snd heq
          simpa using this
        exact ⟨h1, h2⟩
      · exact hinv i j ci cj hij (by rw [← hm4 i hi_m]; exact hi)
          (by rw [← hm4 j hj_m]; exact hj) hact_i hact_j

lemma GcsNoDup_datagram {tbl : List GcsClient} {ip port now : Nat} (hinv : GcsNoDup tbl) :
    GcsNoDup (udp_datagram_step tbl ip port now) := by
  unfold udp_datagram_step add_gcs_client
  split_ifs with h
  · exact GcsNoDup_bump (GcsNoDup_refresh hinv)
  · exact GcsNoDup_bump (GcsNoDup_activate (by simpa using h) hinv)

lemma GcsNoDup_cleanup {tbl : List GcsClient} {now : Nat} (hinv : GcsNoDup tbl) :
    GcsNoDup (cleanup_stale_gcs_clients tbl now) := by
  refine GcsNoDup_of_pointwise ?_ hinv
  intro k c2 hk
  unfold cleanup_stale_gcs_clients at hk
  rw [List.getElem?_map] at hk
  rcases h : tbl[k]? with _ | c
  · rw [h] at hk
    simp at hk
  · rw [h] at hk
    simp only [Option.map_some', Option.some.injEq] at hk
    refine ⟨c, rfl, ?_⟩
    rw [← hk]
    split_ifs with hcond
    · refine ⟨?_, rfl, rfl⟩
      intro hh
      simp at hh
    · exact ⟨fun hh => hh, rfl, rfl⟩

lemma GcsNoDup_init : GcsNoDup gcsInit := by
  intro i j ci cj _ hi hj hact_i _
  unfold gcsInit at hi
  rw [List.getElem?_replicate] at hi
  by_cases hlt : i < 4
  · rw [if_pos hlt] at hi
    cases hi
    exact absurd hact_i (by decide)
  · rw [if_neg hlt] at hi
    cases hi

lemma GcsNoDup_run : ∀ (ops : List GcsOp) (tbl : List GcsClient),
    GcsNoDup tbl → GcsNoDup (runGcsOps tbl ops) := by
  intro ops
  induction ops with
  | nil => intro tbl h; exact h
  | cons op rest ih =>
    intro tbl h
    match op with
    | .datagram ip port now => exact ih _ (GcsNoDup_datagram h)
    | .sweep now => exact ih _ (GcsNoDup_cleanup h)

lemma cleanup_getElem2 (tbl : List GcsClient) (now k : Nat) :
    (cleanup_stale_gcs_clients tbl now)[k]? = tbl[k]?.map fun c =>
      if c.active = true ∧ u64_sub now c.last_seen > 30000 then { c with active := false } else c := by
  unfold cleanup_stale_gcs_clients
  rw [List.getElem?_map]

lemma gcsRefresh_hit : ∀ (tbl : List GcsClient) (ip port now : Nat),
    gcsFound tbl ip port = true →
    ∃ (m : Nat) (d : GcsClient), tbl[m]? = some d ∧ d.active = true ∧ d.ip = ip ∧ d.port = port ∧
      (gcsRefresh tbl ip port now)[m]? = some { d with last_seen := now } := by
  intro tbl
  induction tbl with
  | nil => intro ip port now h; exact absurd h (by simp [gcsFound])
  | cons c rest ih =>
    intro ip port now h
    by_cases hc : (c.active && (c.ip == ip && c.port == port)) = true
    · have hc2 := hc
      simp only [Bool.and_eq_true, beq_iff_eq] at hc2
      refine ⟨0, c, by simp, hc2.1, hc2.2.1, hc2.2.2, ?_⟩
      unfold gcsRefresh
      rw [if_pos hc]
      simp
    · have hcf : (c.active && (c.ip == ip && c.port == port)) = false :=
        Bool.eq_false_iff.mpr hc
      have hrest : gcsFound rest ip port = true := by
        unfold gcsFound at h ⊢
        rw [List.any_cons, hcf, Bool.false_or] at h
        exact h
      obtain ⟨m, d, hm1, hm2, hm3, hm4, hm5⟩ := ih ip port now hrest
      refine ⟨m + 1, d, by simpa using hm1, hm2, hm3, hm4, ?_⟩
      unfold gcsRefresh
      rw [if_neg hc]
      simpa using hm5

lemma udp_step_found_pointwise {tbl : List GcsClient} {ip port now : Nat}
    (hfound : gcsFound tbl ip port = true) :
    ∀ (m : Nat) (c2 : GcsClient), (udp_datagram_step tbl ip port now)[m]? = some c2 →
      ∃ d, tbl[m]? = some d ∧ c2.active = d.active ∧ c2.ip = d.ip ∧ c2.port = d.port := by
  intro m c2 hm
  unfold udp_datagram_step add_gcs_client at hm
  rw [if_pos hfound] at hm
  rcases gcsBumpReceived_getElem? (gcsRefresh tbl ip port now) ip port m with h | ⟨c1, hc1, hc2⟩
  · rw [hm] at h
    rcases gcsRefresh_getElem? tbl ip port now m with h2 | ⟨d, hd1, hd2⟩
    · exact ⟨c2, by rw [← h2, ← h], rfl, rfl, rfl⟩
    · rw [hd2] at h
      rw [Option.some.injEq] at h
      subst h
      exact ⟨d, hd1, rfl, rfl, rfl⟩
  · rw [hm] at hc2
    rw [Option.some.injEq] at hc2
    subst hc2
    rcases gcsRefresh_getElem? tbl ip port now m with h2 | ⟨d, hd1, hd2⟩
    · exact ⟨c1, by rw [← h2]; exact hc1, rfl, rfl, rfl⟩
    · rw [hd2, Option.some.injEq] at hc1
      subst hc1
      exact ⟨d, hd1, rfl, rfl, rfl⟩

lemma udp_step_found_refreshes {tbl : List GcsClient} {ip port now : Nat}
    (hfound : gcsFound tbl ip port = true) :
    ∃ (m : Nat) (d d2 : GcsClient), tbl[m]? = some d ∧ d.active = true ∧ d.ip = ip ∧
      d.port = port ∧ (udp_datagram_step tbl ip port now)[m]? = some d2 ∧ d2.last_seen = now := by
  obtain ⟨m, d, hm1, hm2, hm3, hm4, hm5⟩ := gcsRefresh_hit tbl ip port now hfound
  unfold udp_datagram_step add_gcs_client
  rw [if_pos hfound]
  rcases gcsBumpReceived_getElem? (gcsRefresh tbl ip port now) ip port m with h | ⟨c1, hc1, hc2⟩
  · exact ⟨m, d, { d with last_seen := now }, hm1, hm2, hm3, hm4, by rw [h]; exact hm5, rfl⟩
  · rw [hm5, Option.some.injEq] at hc1
    subst hc1
    exact ⟨m, d, _, hm1, hm2, hm3, hm4, hc2, rfl⟩

lemma cleanup_stale_slot {tbl : List GcsClient} {now k : Nat} {c : GcsClient}
    (hk : tbl[k]? = some c) (hact : c.active = true) (hstale : u64_sub now c.last_seen > 30000) :
    (cleanup_stale_gcs_clients tbl now)[k]? = some { c with active := false } := by
  rw [cleanup_getElem2, hk]
  rw [Option.map_some']
  rw [if_pos ⟨hact, hstale⟩]

lemma cleanup_excludes_stale {tbl : List GcsClient} {now k : Nat} {c : GcsClient}
    (hinv : GcsNoDup tbl) (hk : tbl[k]? = some c) (hact : c.active = true)
    (hstale : u64_sub now c.last_seen > 30000) :
    (c.ip, c.port) ∉ forwardTargets (cleanup_stale_gcs_clients tbl now) := by
  intro hmem
  unfold forwardTargets at hmem
  rw [List.mem_map] at hmem
  obtain ⟨d, hd_mem, hd_eq⟩ := hmem
  rw [List.mem_filter] at hd_mem
  obtain ⟨hd_in, hd_act⟩ := hd_mem
  obtain ⟨j, hj⟩ := List.mem_iff_getElem?.mp hd_in
  rw [cleanup_getElem2] at hj
  rcases htj : tbl[j]? with _ | e
  · rw [htj] at hj
    simp at hj
  · rw [htj] at hj
    rw [Option.map_some', Option.some.injEq] at hj
    by_cases hcond : e.active = true ∧ u64_sub now e.last_seen > 30000
    · rw [if_pos hcond] at hj
      rw [← hj] at hd_act
      simp at hd_act
    · rw [if_neg hcond] at hj
      subst hj
      by_cases hjk : j = k
      · subst hjk
        rw [hk, Option.some.injEq] at htj
        subst htj
        exact hcond ⟨hact, hstale⟩
      · exact hinv j k e c hjk htj hk hd_act hact hd_eq

/-- C4: the GCS peer table of the telemetry bridge keeps at most one entry
per (address, port) along any sequence of inbound datagrams and periodic
sweeps from the zeroed table; a datagram whose source address is already
tracked leaves every slot with its previous active flag and address (no
duplicate entry is created) and refreshes the matching entry, whose
last_seen becomes the current time; and an active entry whose age exceeds
the 30000 ms timeout is deactivated by cleanup_stale_gcs_clients and its
address is excluded from the serial-to-network forwarding targets. -/
theorem c4_gcs_peer_table_unique_and_evicts
    (ops : List GcsOp) (tbl : List GcsClient) (ip port now now2 k : Nat) (c : GcsClient)
    (hinv : GcsNoDup tbl) (hfound : gcsFound tbl ip port = true)
    (hk : tbl[k]? = some c) (hact : c.active = true)
    (hstale : u64_sub now2 c.last_seen > 30000) :
    GcsNoDup (runGcsOps gcsInit ops) ∧
    (∀ (m : Nat) (c2 : GcsClient), (udp_datagram_step tbl ip port now)[m]? = some c2 →
      ∃ d, tbl[m]? = some d ∧ c2.active = d.active ∧ c2.ip = d.ip ∧ c2.port = d.port) ∧
    (∃ (m : Nat) (d d2 : GcsClient), tbl[m]? = some d ∧ d.active = true ∧ d.ip = ip ∧
      d.port = port ∧ (udp_datagram_step tbl ip port now)[m]? = some d2 ∧ d2.last_seen = now) ∧
    (cleanup_stale_gcs_clients tbl now2)[k]? = some { c with active := false } ∧
    (c.ip, c.port) ∉ forwardTargets (cleanup_stale_gcs_clients tbl now2) :=
  ⟨GcsNoDup_run ops gcsInit GcsNoDup_init, udp_step_found_pointwise hfound,
    udp_step_found_refreshes hfound, cleanup_stale_slot hk hact hstale,
    cleanup_excludes_stale hinv hk hact hstale⟩

/-- Witness for C4 at a concrete run: one datagram from (10, 14550) at t=0,
a second at t=5000 refreshing it, and a sweep at t=40000 evicting it. -/
theorem c4_witness :
    GcsNoDup (runGcsOps gcsInit [GcsOp.datagram 10 14550 0]) ∧
    (∀ (m : Nat) (c2 : GcsClient),
      (udp_datagram_step (runGcsOps gcsInit [GcsOp.datagram 10 14550 0]) 10 14550 5000)[m]? =
        some c2 →
      ∃ d, (runGcsOps gcsInit [GcsOp.datagram 10 14550 0])[m]? = some d ∧
        c2.active = d.active ∧ c2.ip = d.ip ∧ c2.port = d.port) ∧
    (∃ (m : Nat) (d d2 : GcsClient),
      (runGcsOps gcsInit [GcsOp.datagram 10 14550 0])[m]? = some d ∧ d.active = true ∧
      d.ip = 10 ∧ d.port = 14550 ∧
      (udp_datagram_step (runGcsOps gcsInit [GcsOp.datagram 10 14550 0]) 10 14550 5000)[m]? =
        some d2 ∧ d2.last_seen = 5000) ∧
    (cleanup_stale_gcs_clients (runGcsOps gcsInit [GcsOp.datagram 10 14550 0]) 40000)[0]? =
      some { active := false, ip := 10, port := 14550, last_seen := 0,
             messages_sent := 0, messages_received := 1 } ∧
    ((10 : Nat), (14550 : Nat)) ∉ forwardTargets
      (cleanup_stale_gcs_clients (runGcsOps gcsInit [GcsOp.datagram 10 14550 0]) 40000) :=
  c4_gcs_peer_table_unique_and_evicts [GcsOp.datagram 10 14550 0]
    (runGcsOps gcsInit [GcsOp.datagram 10 14550 0]) 10 14550 5000 40000 0
    { active := true, ip := 10, port := 14550, last_seen := 0,
      messages_sent := 0, messages_received := 1 }
    (GcsNoDup_run [GcsOp.datagram 10 14550 0] gcsInit GcsNoDup_init)
    (by decide) (by decide) (by decide) (by decide)

end MavlinkDrone
